import Mathlib

/-!
XLSX report export (deepfence_worker/tasks/reports/xlsx.go)

A shallow embedding of the report exporters of `xlsx.go` and of the parts of the
spreadsheet library (`github.com/xuri/excelize/v2`) they call: the conversion
between cell names and coordinates, and the two cell-writing calls.

Go `int` values are modelled by `Nat`: every integer computed in `xlsx.go` is a
slice index or a sum of slice lengths plus two.

An exporter is a function from its environment (`Env`: the fetch functions, the
file system, the encoder) and the report request to an `Outcome`: the two
values it returns, the workbook it built and the list of its effects.
-/

namespace Reports

deriving instance DecidableEq for Except

/-! ## Values and errors -/

/-- A value held in a Go `interface{}` slot, as handed to the spreadsheet
library. A `float64` is carried by its bit pattern: it is only copied. -/
inductive GoValue where
  | str (s : String)
  | int (n : Int)
  | float (bits : Nat)
  | bool (b : Bool)
  deriving DecidableEq, Repr

/-- Go `error` values that occur in the exporters. `ErrUnknownScanType` is the
package's sentinel; `ErrMaxRows`, `ErrColumnNumber`, `ErrSheetNotExist` and the
three `invalid...` errors are the spreadsheet library's; `external` is an error
of a collaborator (fetch, file system); `wrapped` is `fmt.Errorf` with `%w`. -/
inductive GoError where
  | ErrUnknownScanType
  | ErrMaxRows
  | ErrColumnNumber
  | ErrSheetNotExist (sheet : String)
  | invalidCellReference (col row : Nat)
  | invalidCellName (cell : String)
  | invalidColumnName (name : String)
  | external (msg : String)
  | wrapped (msg : String) (cause : GoError)
  deriving DecidableEq, Repr

/-- Go `errors.Is`: `target` is `err` itself or is reached by unwrapping it. -/
def GoError.Is (err target : GoError) : Bool :=
  if err = target then true
  else match err with
    | .wrapped _ cause => cause.Is target
    | _ => false

/-- The error `err` is a wrapped form of `target`: it was made by wrapping
(`fmt.Errorf` with `%w`) an error that is `target` or from which `target` is
reached by unwrapping. -/
def GoError.Wraps (err target : GoError) : Prop :=
  ∃ msg cause, err = .wrapped msg cause ∧ cause.Is target = true

/-! ## Cell names (excelize `lib.go`) -/

/-- Library constant: the number of rows of a worksheet. -/
def TotalRows : Nat := 1048576

/-- Library constant: the number of columns of a worksheet. -/
def MaxColumns : Nat := 16384

/-- The predicate `alpha` of `SplitCellName`: a letter or the dollar sign. -/
def alpha (r : Char) : Bool :=
  (65 ≤ r.toNat && r.toNat ≤ 90) || (97 ≤ r.toNat && r.toNat ≤ 122) || r.toNat == 36

/-- Go `strings.LastIndexFunc` on a list of characters. -/
def LastIndexFunc (p : Char → Bool) : List Char → Option Nat
  | [] => none
  | c :: cs =>
    match LastIndexFunc p cs with
    | some j => some (j + 1)
    | none => if p c then some 0 else none

/-- The digits of a decimal numeral, read left to right into `acc`. -/
def parseDigits : List Char → Nat → Option Nat
  | [], acc => some acc
  | c :: cs, acc =>
    if 48 ≤ c.toNat ∧ c.toNat ≤ 57 then parseDigits cs (10 * acc + (c.toNat - 48)) else none

/-- Go `strconv.Atoi`: an optional sign, then one or more decimal digits, the
value within the range of a 64-bit `int`. -/
def Atoi (s : List Char) : Option Int :=
  match s with
  | [] => none
  | c :: cs =>
    if c.toNat = 43 then
      if cs = [] then none
      else (parseDigits cs 0).bind fun n => if n < 2 ^ 63 then some (n : Int) else none
    else if c.toNat = 45 then
      if cs = [] then none
      else (parseDigits cs 0).bind fun n => if n ≤ 2 ^ 63 then some (-(n : Int)) else none
    else (parseDigits (c :: cs) 0).bind fun n => if n < 2 ^ 63 then some (n : Int) else none

/-- The loop of `strconv.Itoa` on a non-negative number: the decimal digits of
`n` are put in front of `acc`, last digit first. -/
def itoaLoop : Nat → Nat → List Char → List Char
  | 0, _, acc => acc
  | fuel + 1, n, acc =>
    if n / 10 = 0 then Char.ofNat (48 + n % 10) :: acc
    else itoaLoop fuel (n / 10) (Char.ofNat (48 + n % 10) :: acc)

/-- Go `strconv.Itoa` on a non-negative number. -/
def Itoa (n : Nat) : List Char := itoaLoop (n + 1) n []

/-- Excelize `SplitCellName`: the column name and the row number of a cell name. -/
def SplitCellName (cell : String) : Except GoError (List Char × Nat) :=
  match cell.data with
  | [] => .error (.invalidCellName cell)
  | c :: cs =>
    if alpha c then
      match LastIndexFunc alpha (c :: cs) with
      | some i =>
        if i < (c :: cs).length - 1 then
          match Atoi ((c :: cs).drop (i + 1)) with
          | some row =>
            if row > 0 then .ok (((c :: cs).take (i + 1)).filter (fun r => r.toNat != 36), row.toNat)
            else .error (.invalidCellName cell)
          | none => .error (.invalidCellName cell)
        else .error (.invalidCellName cell)
      | none => .error (.invalidCellName cell)
    else .error (.invalidCellName cell)

/-- The loop of excelize `ColumnNameToNumber`, over the name read from its last
character: `col` accumulates the letters' values, `multi` is the power of 26. -/
def columnNameLoop : List Char → Nat → Nat → Option Nat
  | [], col, _ => some col
  | r :: rs, col, multi =>
    if 65 ≤ r.toNat ∧ r.toNat ≤ 90 then columnNameLoop rs (col + (r.toNat - 65 + 1) * multi) (multi * 26)
    else if 97 ≤ r.toNat ∧ r.toNat ≤ 122 then
      columnNameLoop rs (col + (r.toNat - 97 + 1) * multi) (multi * 26)
    else none

/-- Excelize `ColumnNameToNumber`. -/
def ColumnNameToNumber (name : List Char) : Except GoError Nat :=
  if name.length = 0 then .error (.invalidColumnName (String.mk name))
  else
    match columnNameLoop name.reverse 0 1 with
    | none => .error (.invalidColumnName (String.mk name))
    | some col => if col > MaxColumns then .error .ErrColumnNumber else .ok col

/-- The loop of excelize `ColumnNumberToName`: letters are put in front of `col`
while `num` is positive. -/
def columnNumberLoop : Nat → Nat → List Char → List Char
  | 0, _, col => col
  | fuel + 1, num, col =>
    if num > 0 then columnNumberLoop fuel ((num - 1) / 26) (Char.ofNat ((num - 1) % 26 + 65) :: col)
    else col

/-- Excelize `ColumnNumberToName`. -/
def ColumnNumberToName (num : Nat) : Except GoError (List Char) :=
  if num < 1 ∨ num > MaxColumns then .error .ErrColumnNumber
  else .ok (columnNumberLoop num num [])

/-- Excelize `CellNameToCoordinates`: column and row of a cell name. -/
def CellNameToCoordinates (cell : String) : Except GoError (Nat × Nat) :=
  match SplitCellName cell with
  | .error err => .error err
  | .ok (colName, row) =>
    if row > TotalRows then .error .ErrMaxRows
    else
      match ColumnNameToNumber colName with
      | .error err => .error err
      | .ok col => .ok (col, row)

/-- Excelize `CoordinatesToCellName` (relative reference): the cell name of a
column and a row, an error when either is below one. The library's source is
not part of the repository; whether this function itself also rejects a row
past `TotalRows` is left open by `rowCheck` (`CellNameToCoordinates` rejects
such a row in either case), and what is proved holds for both. -/
def CoordinatesToCellName (rowCheck : Bool) (col row : Nat) : Except GoError String :=
  if col < 1 ∨ row < 1 then .error (.invalidCellReference col row)
  else if rowCheck = true ∧ row > TotalRows then .error .ErrMaxRows
  else
    match ColumnNumberToName col with
    | .error err => .error err
    | .ok colName => .ok (String.mk (colName ++ Itoa row))


/-! ## The workbook (excelize `File`) -/

/-- A workbook as `excelize.NewFile` makes it: the one worksheet `Sheet1`, held
as the list of the cells set in it, the latest first. An entry is
(column, row, value). -/
structure File where
  Sheet1 : List (Nat × Nat × GoValue)
  deriving DecidableEq, Repr

/-- Excelize `NewFile`: a workbook whose `Sheet1` is empty. -/
def NewFile : File := ⟨[]⟩

/-- The value a cell of `Sheet1` holds: the latest one set there, if any. -/
def File.cellAt (f : File) (col row : Nat) : Option GoValue :=
  (f.Sheet1.find? (fun e => e.1 == col && e.2.1 == row)).map (fun e => e.2.2)

/-- Library constant: the number of characters a cell can hold. -/
def TotalCellChars : Nat := 32767

/-- The value a cell keeps of a value set in it: a string longer than
`TotalCellChars` characters is cut to its first `TotalCellChars` characters
(excelize `setCellString`); other values are kept as given. -/
def cellValue (value : GoValue) : GoValue :=
  match value with
  | .str s => .str (String.mk (s.data.take TotalCellChars))
  | .int n => .int n
  | .float bits => .float bits
  | .bool b => .bool b

/-- Excelize `SetCellValue`: the value, cut by `cellValue`, is stored at the
coordinates the cell name denotes; an unknown sheet or an invalid cell name is
an error and leaves the workbook as it was. How the encoder writes a stored
value into the file is outside this model. -/
def File.SetCellValue (f : File) (sheet cell : String) (value : GoValue) : File × Option GoError :=
  if sheet ≠ "Sheet1" then (f, some (.ErrSheetNotExist sheet))
  else
    match CellNameToCoordinates cell with
    | .error err => (f, some err)
    | .ok (col, row) => (⟨(col, row, cellValue value) :: f.Sheet1⟩, none)

/-- The loop of excelize `setSheetCells` in row direction: value `i` of the
slice goes to column `col + i` of `row`; the first error ends the loop. -/
def setSheetCellsLoop (rowCheck : Bool) (sheet : String) (col row : Nat) :
    File → Nat → List GoValue → File × Option GoError
  | f, _, [] => (f, none)
  | f, i, v :: vs =>
    match CoordinatesToCellName rowCheck (col + i) row with
    | .error err => (f, some err)
    | .ok cell =>
      match f.SetCellValue sheet cell v with
      | (f1, some err) => (f1, some err)
      | (f1, none) => setSheetCellsLoop rowCheck sheet col row f1 (i + 1) vs

/-- Excelize `SetSheetRow`: the values of the slice are written along a row
from the named cell on. A cell name that does not parse is an error and nothing
is written. -/
def File.SetSheetRow (f : File) (rowCheck : Bool) (sheet cell : String) (slice : List GoValue) :
    File × Option GoError :=
  match CellNameToCoordinates cell with
  | .error err => (f, some err)
  | .ok (col, row) => setSheetCellsLoop rowCheck sheet col row f 0 slice

/-! ## Data handed to the exporters

The record types are declared outside `xlsx.go`; they are given here the fields
that `xlsx.go` reads, which are the fields the data model of the specification
lists. Each field is put into an `interface{}` slot when it is read, so it is
held as the `GoValue` it becomes there. -/

/-- Modelled from the spec: the type of `ScanInfo`, declared outside `xlsx.go`;
the identifying data of a node group. -/
structure ScanInfo where
  ScanID : GoValue
  NodeID : GoValue
  NodeName : GoValue
  HostName : GoValue
  ContainerName : GoValue
  KubernetesClusterName : GoValue
  NodeType : GoValue
  UpdatedAt : GoValue
  deriving DecidableEq, Repr

/-- Modelled from the spec: the type of a vulnerability record, declared outside
`xlsx.go`. -/
structure Vulnerability where
  Cve_attack_vector : GoValue
  Cve_caused_by_package : GoValue
  Cve_cvss_score : GoValue
  Cve_description : GoValue
  Cve_fixed_in : GoValue
  Cve_id : GoValue
  Cve_link : GoValue
  Cve_severity : GoValue
  Cve_overall_score : GoValue
  Cve_type : GoValue
  Masked : GoValue
  deriving DecidableEq, Repr

/-- Modelled from the spec: the type of a secret record, declared outside
`xlsx.go`. -/
structure Secret where
  FullFilename : GoValue
  MatchedContent : GoValue
  Name : GoValue
  RuleID : GoValue
  Level : GoValue
  SignatureToMatch : GoValue
  deriving DecidableEq, Repr

/-- Modelled from the spec: the type of a malware record, declared outside
`xlsx.go`. -/
structure Malware where
  RuleName : GoValue
  SeverityScore : GoValue
  RuleID : GoValue
  FileSevScore : GoValue
  FileSeverity : GoValue
  Summary : GoValue
  deriving DecidableEq, Repr

/-- Modelled from the spec: the type of a compliance record, declared outside
`xlsx.go`. -/
structure Compliance where
  ComplianceCheckType : GoValue
  Masked : GoValue
  ComplianceNodeId : GoValue
  ComplianceNodeType : GoValue
  Status : GoValue
  TestCategory : GoValue
  TestDesc : GoValue
  TestInfo : GoValue
  TestNumber : GoValue
  deriving DecidableEq, Repr

/-- Modelled from the spec: the type of a cloud-compliance record, declared
outside `xlsx.go` (`Type_` is the Go field `Type`). -/
structure CloudCompliance where
  ComplianceCheckType : GoValue
  Masked : GoValue
  NodeID : GoValue
  Status : GoValue
  Type_ : GoValue
  Description : GoValue
  Title : GoValue
  ControlID : GoValue
  deriving DecidableEq, Repr

/-- Modelled from the spec: the type of a node group, declared outside
`xlsx.go`: the scan's `ScanInfo` and its result records. -/
structure NodeScanData (R : Type) where
  ScanInfo : ScanInfo
  ScanResults : List R
  deriving DecidableEq, Repr

/-- Modelled from the spec: the type of `NodeWiseData`, declared outside
`xlsx.go`: the node groups in fetch order. -/
structure NodeWiseData (R : Type) where
  ScanData : List (NodeScanData R)
  deriving DecidableEq, Repr

/-- Modelled from the spec: the type a fetch function returns, declared outside
`xlsx.go`, which reads its `NodeWiseData.ScanData`. -/
structure Info (R : Type) where
  NodeWiseData : NodeWiseData R
  deriving DecidableEq, Repr

/-- Modelled from the spec: the type of the filters of a report request,
declared outside `xlsx.go`: `ScanType`, and the fields `xlsx.go` only passes
on. -/
structure ReportFilters where
  ScanType : String
  Other : List String
  deriving DecidableEq, Repr

/-- Modelled from the spec: the type `utils.ReportParams`, declared outside
`xlsx.go`, which reads `Filters.ScanType` and passes the whole value to the
fetch functions and to `reportFileName`. -/
structure ReportParams where
  Filters : ReportFilters
  deriving DecidableEq, Repr

/-! ## Effects -/

/-- What an exporter does outside its own variables, in the order it does it:
calls of a fetch function (named), error lines of the log, and the calls that
create, save and close a workbook or a temporary file. -/
inductive Event where
  | fetch (function : String)
  | logError (msg : String) (err : GoError)
  | NewFile
  | CreateTemp (pattern : String)
  | SaveAs (name : String) (xlsx : File)
  | closeTemp (name : String)
  | Close
  deriving DecidableEq, Repr

/-- What `xlsx.go` uses and does not define: the scan-type constants (pairwise
different, being the cases of one `switch`), the five fetch functions,
`reportFileName`, the file system (`os.CreateTemp`), the workbook encoder
(`SaveAs`, `Close`) and the order in which `range` visits a map (some
rearrangement of its entries); and `rowCheck`, the point the model of the
spreadsheet library leaves open (see `CoordinatesToCellName`). -/
structure Env where
  rowCheck : Bool
  VULNERABILITY : String
  SECRET : String
  MALWARE : String
  COMPLIANCE : String
  CLOUD_COMPLIANCE : String
  scanTypes_nodup : [VULNERABILITY, SECRET, MALWARE, COMPLIANCE, CLOUD_COMPLIANCE].Nodup
  getVulnerabilityData : ReportParams → Except GoError (Info Vulnerability)
  getSecretData : ReportParams → Except GoError (Info Secret)
  getMalwareData : ReportParams → Except GoError (Info Malware)
  getComplianceData : ReportParams → Except GoError (Info Compliance)
  getCloudComplianceData : ReportParams → Except GoError (Info CloudCompliance)
  reportFileName : ReportParams → String
  CreateTemp : String → Except GoError String
  SaveAs : File → String → Option GoError
  Close : File → Option GoError
  mapRange : List (String × String) → List (String × String)
  mapRange_perm : ∀ m, (mapRange m).Perm m

/-- What a call of an exporter gives: the two values it returns, the workbook it
built (none when it made none), and what it did on the way. -/
structure Outcome where
  path : String
  err : Option GoError
  xlsx : Option File
  events : List Event
  deriving DecidableEq, Repr

/-! ## xlsx.go -/

/-- Lines 13-31. The entries of the map literal, in the order they are written. -/
def vulnerabilityHeader : List (String × String) :=
  [("A1", "@timestamp"),
   ("B1", "cve_attack_vector"),
   ("C1", "cve_caused_by_package"),
   ("D1", "cve_container_image"),
   ("E1", "scan_id"),
   ("F1", "cve_container_image_id"),
   ("G1", "cve_cvss_score"),
   ("H1", "cve_description"),
   ("I1", "cve_fixed_in"),
   ("J1", "cve_id"),
   ("K1", "cve_link"),
   ("L1", "cve_severity"),
   ("M1", "cve_overall_score"),
   ("N1", "cve_type"),
   ("O1", "host"),
   ("P1", "host_name"),
   ("Q1", "masked")]

/-- Lines 32-42. -/
def secretHeader : List (String × String) :=
  [("A1", "Filename"),
   ("B1", "Content"),
   ("C1", "Name"),
   ("D1", "Rule"),
   ("E1", "Severity"),
   ("F1", "Node Name"),
   ("G1", "Container Name"),
   ("H1", "Kubernetes Cluster Name"),
   ("I1", "Signature")]

/-- Lines 43-55. -/
def malwareHeader : List (String × String) :=
  [("A1", "Rule Name"),
   ("B1", "Severity"),
   ("C1", "Meta"),
   ("D1", "Meta Rules"),
   ("E1", "File Severity Score"),
   ("F1", "File Severity"),
   ("G1", "Summary"),
   ("H1", "Node Name"),
   ("I1", "Container Name"),
   ("J1", "Kubernetes Cluster Name"),
   ("K1", "NodeType")]

/-- Lines 56-72. -/
def complianceHeader : List (String × String) :=
  [("A1", "@timestamp"),
   ("B1", "compliance_check_type"),
   ("C1", "count"),
   ("D1", "doc_id"),
   ("E1", "host"),
   ("F1", "host_name"),
   ("G1", "masked"),
   ("H1", "node_id"),
   ("I1", "node_name"),
   ("J1", "node_type"),
   ("K1", "status"),
   ("L1", "test_category"),
   ("M1", "test_desc"),
   ("N1", "test_info"),
   ("O1", "test_number")]

/-- Go `for i, x := range xs`, the index starting at `i`: the body is run on
each element in order, on the state the previous run left. -/
def forRangeFrom {σ α : Type} (body : σ → Nat → α → σ) : Nat → List α → σ → σ
  | _, [], st => st
  | i, x :: xs, st => forRangeFrom body (i + 1) xs (body st i x)

/-- Go `for i, x := range xs`. -/
def forRange {σ α : Type} (xs : List α) (body : σ → Nat → α → σ) (init : σ) : σ :=
  forRangeFrom body 0 xs init

/-- Lines 104-118, `xlsxSave`: the two values returned and the events. The
deferred `temp.Close()` runs when the function returns. -/
def xlsxSave (env : Env) (xlsx : File) (params : ReportParams) : (String × Option GoError) × List Event :=
  match env.CreateTemp ("report-*-" ++ env.reportFileName params) with
  | .error err => (("", some err), [.CreateTemp ("report-*-" ++ env.reportFileName params)])
  | .ok temp =>
    match env.SaveAs xlsx temp with
    | some err =>
      (("", some err),
        [.CreateTemp ("report-*-" ++ env.reportFileName params), .SaveAs temp xlsx,
         .logError "failed to save xlsx file" err, .closeTemp temp])
    | none =>
      ((temp, none),
        [.CreateTemp ("report-*-" ++ env.reportFileName params), .SaveAs temp xlsx, .closeTemp temp])

/-- Lines 120-124, `xlsxSetHeader`: each entry of the map is set as a cell, in
the order `range` visits the map; what `SetCellValue` returns is dropped. -/
def xlsxSetHeader (env : Env) (xlsx : File) (sheet : String) (headers : List (String × String)) : File :=
  (env.mapRange headers).foldl (fun xlsx kv => (xlsx.SetCellValue sheet kv.1 (.str kv.2)).1) xlsx

/-- The deferred function of every exporter (lines 134-138): the workbook is
closed and a failure to close is logged. -/
def deferClose (env : Env) (xlsx : File) : List Event :=
  match env.Close xlsx with
  | some err => [.Close, .logError "failed to close file" err]
  | none => [.Close]

/-- The body of every record loop (lines 145-148 and 168, and the same lines of
the other four exporters), on the workbook and the log lines so far: the cell
name of column 1 of `row` is computed; a failure is logged and the loop body
goes on with the empty cell name it got (there is no `continue`);
`SetSheetRow` is called with the cell name and the values and what it returns
is dropped. -/
def writeRow (rowCheck : Bool) (st : File × List Event) (row : Nat) (value : List GoValue) :
    File × List Event :=
  match CoordinatesToCellName rowCheck 1 row with
  | .error err =>
    ((st.1.SetSheetRow rowCheck "Sheet1" "" value).1,
      st.2 ++ [.logError "error generating cell name" err])
  | .ok cellName => ((st.1.SetSheetRow rowCheck "Sheet1" cellName value).1, st.2)

/-- Lines 149-167: the `value` slice of a vulnerability record. -/
def vulnerabilityValue (nodeScanData : NodeScanData Vulnerability) (v : Vulnerability) : List GoValue :=
  [nodeScanData.ScanInfo.UpdatedAt,
   v.Cve_attack_vector,
   v.Cve_caused_by_package,
   nodeScanData.ScanInfo.NodeName,
   nodeScanData.ScanInfo.ScanID,
   nodeScanData.ScanInfo.NodeID,
   v.Cve_cvss_score,
   v.Cve_description,
   v.Cve_fixed_in,
   v.Cve_id,
   v.Cve_link,
   v.Cve_severity,
   v.Cve_overall_score,
   v.Cve_type,
   nodeScanData.ScanInfo.HostName,
   nodeScanData.ScanInfo.HostName,
   v.Masked]

/-- Lines 199-209: the `value` slice of a secret record. -/
def secretValue (nodeScanData : NodeScanData Secret) (s : Secret) : List GoValue :=
  [s.FullFilename,
   s.MatchedContent,
   s.Name,
   s.RuleID,
   s.Level,
   nodeScanData.ScanInfo.NodeName,
   nodeScanData.ScanInfo.ContainerName,
   nodeScanData.ScanInfo.KubernetesClusterName,
   s.SignatureToMatch]

/-- Lines 241-253: the `value` slice of a malware record. -/
def malwareValue (nodeScanData : NodeScanData Malware) (m : Malware) : List GoValue :=
  [m.RuleName,
   m.SeverityScore,
   .str "",
   m.RuleID,
   m.FileSevScore,
   m.FileSeverity,
   m.Summary,
   nodeScanData.ScanInfo.NodeName,
   nodeScanData.ScanInfo.ContainerName,
   nodeScanData.ScanInfo.KubernetesClusterName,
   nodeScanData.ScanInfo.NodeType]

/-- Lines 285-301: the `value` slice of a compliance record. -/
def complianceValue (nodeScanData : NodeScanData Compliance) (c : Compliance) : List GoValue :=
  [nodeScanData.ScanInfo.UpdatedAt,
   c.ComplianceCheckType,
   .str "",
   .str "",
   nodeScanData.ScanInfo.HostName,
   nodeScanData.ScanInfo.HostName,
   c.Masked,
   c.ComplianceNodeId,
   nodeScanData.ScanInfo.NodeName,
   c.ComplianceNodeType,
   c.Status,
   c.TestCategory,
   c.TestDesc,
   c.TestInfo,
   c.TestNumber]

/-- Lines 332-348: the `value` slice of a cloud-compliance record. -/
def cloudComplianceValue (data : NodeScanData CloudCompliance) (c : CloudCompliance) : List GoValue :=
  [data.ScanInfo.UpdatedAt,
   c.ComplianceCheckType,
   .str "",
   .str "",
   data.ScanInfo.HostName,
   data.ScanInfo.HostName,
   c.Masked,
   c.NodeID,
   data.ScanInfo.NodeName,
   c.ComplianceCheckType,
   c.Status,
   c.Type_,
   c.Description,
   c.Title,
   c.ControlID]

/-- The end of every exporter: `return xlsxSave(xlsx, params)`, then the
deferred close. `before` holds the events up to there. -/
def saveAndClose (env : Env) (xlsx : File) (params : ReportParams) (before : List Event) : Outcome :=
  { path := (xlsxSave env xlsx params).1.1
    err := (xlsxSave env xlsx params).1.2
    xlsx := some xlsx
    events := before ++ (xlsxSave env xlsx params).2 ++ deferClose env xlsx }

/-- Lines 126-174, `vulnerabilityXLSX`. The loop state is the workbook with the
log lines, and `offset`. -/
def vulnerabilityXLSX (env : Env) (params : ReportParams) : Outcome :=
  match env.getVulnerabilityData params with
  | .error err =>
    { path := "", err := some err, xlsx := none
      events := [.fetch "getVulnerabilityData", .logError "failed to get vulnerabilities info" err] }
  | .ok data =>
    let xlsx := xlsxSetHeader env NewFile "Sheet1" vulnerabilityHeader
    let st := forRange data.NodeWiseData.ScanData
      (fun (st : (File × List Event) × Nat) _ nodeScanData =>
        (forRange nodeScanData.ScanResults
          (fun acc i v => writeRow env.rowCheck acc (st.2 + i + 2) (vulnerabilityValue nodeScanData v)) st.1,
         st.2 + nodeScanData.ScanResults.length))
      ((xlsx, []), 0)
    saveAndClose env st.1.1 params ([.fetch "getVulnerabilityData", .NewFile] ++ st.1.2)

/-- Lines 176-216, `secretXLSX`. -/
def secretXLSX (env : Env) (params : ReportParams) : Outcome :=
  match env.getSecretData params with
  | .error err =>
    { path := "", err := some err, xlsx := none
      events := [.fetch "getSecretData", .logError "failed to get secrets info" err] }
  | .ok data =>
    let xlsx := xlsxSetHeader env NewFile "Sheet1" secretHeader
    let st := forRange data.NodeWiseData.ScanData
      (fun (st : (File × List Event) × Nat) _ nodeScanData =>
        (forRange nodeScanData.ScanResults
          (fun acc i s => writeRow env.rowCheck acc (st.2 + i + 2) (secretValue nodeScanData s)) st.1,
         st.2 + nodeScanData.ScanResults.length))
      ((xlsx, []), 0)
    saveAndClose env st.1.1 params ([.fetch "getSecretData", .NewFile] ++ st.1.2)

/-- Lines 218-260, `malwareXLSX`. -/
def malwareXLSX (env : Env) (params : ReportParams) : Outcome :=
  match env.getMalwareData params with
  | .error err =>
    { path := "", err := some err, xlsx := none
      events := [.fetch "getMalwareData", .logError "failed to get malwares info" err] }
  | .ok data =>
    let xlsx := xlsxSetHeader env NewFile "Sheet1" malwareHeader
    let st := forRange data.NodeWiseData.ScanData
      (fun (st : (File × List Event) × Nat) _ nodeScanData =>
        (forRange nodeScanData.ScanResults
          (fun acc i m => writeRow env.rowCheck acc (st.2 + i + 2) (malwareValue nodeScanData m)) st.1,
         st.2 + nodeScanData.ScanResults.length))
      ((xlsx, []), 0)
    saveAndClose env st.1.1 params ([.fetch "getMalwareData", .NewFile] ++ st.1.2)

/-- Lines 262-308, `complianceXLSX`. -/
def complianceXLSX (env : Env) (params : ReportParams) : Outcome :=
  match env.getComplianceData params with
  | .error err =>
    { path := "", err := some err, xlsx := none
      events := [.fetch "getComplianceData", .logError "failed to get compliance info" err] }
  | .ok data =>
    let xlsx := xlsxSetHeader env NewFile "Sheet1" complianceHeader
    let st := forRange data.NodeWiseData.ScanData
      (fun (st : (File × List Event) × Nat) _ nodeScanData =>
        (forRange nodeScanData.ScanResults
          (fun acc i c => writeRow env.rowCheck acc (st.2 + i + 2) (complianceValue nodeScanData c)) st.1,
         st.2 + nodeScanData.ScanResults.length))
      ((xlsx, []), 0)
    saveAndClose env st.1.1 params ([.fetch "getComplianceData", .NewFile] ++ st.1.2)

/-- Lines 310-354, `cloudComplianceXLSX`: there is no `offset`; the row of a
record is its index in its own group plus two. -/
def cloudComplianceXLSX (env : Env) (params : ReportParams) : Outcome :=
  match env.getCloudComplianceData params with
  | .error err =>
    { path := "", err := some err, xlsx := none
      events := [.fetch "getCloudComplianceData", .logError "failed to get cloud compliance info" err] }
  | .ok data =>
    let xlsx := xlsxSetHeader env NewFile "Sheet1" complianceHeader
    let st := forRange data.NodeWiseData.ScanData
      (fun (st : File × List Event) _ data =>
        forRange data.ScanResults
          (fun acc i c => writeRow env.rowCheck acc (i + 2) (cloudComplianceValue data c)) st)
      (xlsx, [])
    saveAndClose env st.1 params ([.fetch "getCloudComplianceData", .NewFile] ++ st.2)

/-- Lines 75-102, `generateXLSX`: the exporter of the scan type is called; an
unknown scan type returns `ErrUnknownScanType` at once. -/
def generateXLSX (env : Env) (params : ReportParams) : Outcome :=
  let out :=
    if params.Filters.ScanType = env.VULNERABILITY then some (vulnerabilityXLSX env params)
    else if params.Filters.ScanType = env.SECRET then some (secretXLSX env params)
    else if params.Filters.ScanType = env.MALWARE then some (malwareXLSX env params)
    else if params.Filters.ScanType = env.COMPLIANCE then some (complianceXLSX env params)
    else if params.Filters.ScanType = env.CLOUD_COMPLIANCE then some (cloudComplianceXLSX env params)
    else none
  match out with
  | none => { path := "", err := some .ErrUnknownScanType, xlsx := none, events := [] }
  | some out =>
    match out.err with
    | some err => { out with path := "", err := some err }
    | none => { out with path := out.path, err := none }

/-! ## Reading a worksheet

Definitions used to state what a worksheet holds after an export. -/

/-- The first of two optional values that is present. -/
def overlay (a b : Option GoValue) : Option GoValue :=
  match a with
  | some x => some x
  | none => b

/-- The values of a record as the cells of its row keep them. -/
def storedValue {R : Type} (value : NodeScanData R → R → List GoValue) :
    NodeScanData R → R → List GoValue :=
  fun g rec => (value g rec).map cellValue

/-- The rows of values of one node group, in the order of its records. -/
def groupRows {R : Type} (value : NodeScanData R → R → List GoValue) (g : NodeScanData R) :
    List (List GoValue) :=
  g.ScanResults.map (value g)

/-- The rows of values of all node groups, group after group in fetch order. -/
def flatRows {R : Type} (value : NodeScanData R → R → List GoValue) :
    List (NodeScanData R) → List (List GoValue)
  | [] => []
  | g :: gs => groupRows value g ++ flatRows value gs

/-- The total number of result records of the node groups. -/
def totalResults {R : Type} : List (NodeScanData R) → Nat
  | [] => 0
  | g :: gs => g.ScanResults.length + totalResults gs

/-- The number of result records in the first `g` node groups. -/
def resultsBefore {R : Type} (data : List (NodeScanData R)) (g : Nat) : Nat :=
  totalResults (data.take g)

/-- Rows of values written one below the other from row `row` on. -/
def writeSeq (rowCheck : Bool) : File × List Event → Nat → List (List GoValue) → File × List Event
  | st, _, [] => st
  | st, row, v :: vs => writeSeq rowCheck (writeRow rowCheck st row v) (row + 1) vs

/-- Groups of rows, each group written from row 2 on. -/
def writeGroups (rowCheck : Bool) : File × List Event → List (List (List GoValue)) → File × List Event
  | st, [] => st
  | st, vs :: rest => writeGroups rowCheck (writeSeq rowCheck st 2 vs) rest

/-- The value that rows written from row `base` on put at a column and a row
within the row limit. -/
def seqCell (vs : List (List GoValue)) (base c r : Nat) : Option GoValue :=
  if base ≤ r ∧ r ≤ TotalRows ∧ 1 ≤ c then (vs[r - base]?).bind (fun v => v[c - 1]?) else none

/-- The value that groups of rows, each group written from row 2 on, put at a
column and a row: the one of the last group that reaches the row. -/
def restartCell : List (List (List GoValue)) → Nat → Nat → Option GoValue
  | [], _, _ => none
  | vs :: rest, c, r => overlay (restartCell rest c r) (seqCell vs 2 c r)

/-- The rows from row 2 down in which some cell has been set, each once. -/
def File.dataRows (f : File) : List Nat :=
  ((f.Sheet1.map (fun e => e.2.1)).filter (fun r => decide (2 ≤ r))).dedup

/-- The cell of row 1 that a header map puts in a column: the label of the
entry at that place of the map literal. -/
def headerCell (headers : List (String × String)) (c r : Nat) : Option GoValue :=
  if r = 1 ∧ 1 ≤ c then (headers[c - 1]?).map (fun e => GoValue.str e.2) else none

/-- The keys of a header map are the cell names of row 1 from column 1 on, in
the order of the map literal. -/
def keysInOrder (headers : List (String × String)) : Prop :=
  headers.map (fun e => CellNameToCoordinates e.1) =
    (List.range headers.length).map (fun i => Except.ok (i + 1, 1))

instance (headers : List (String × String)) : Decidable (keysInOrder headers) := by
  unfold keysInOrder
  infer_instance

/-- No label of a header map is longer than a cell can hold. -/
def labelsShort (headers : List (String × String)) : Prop :=
  ∀ e ∈ headers, e.2.length ≤ TotalCellChars

instance (headers : List (String × String)) : Decidable (labelsShort headers) := by
  unfold labelsShort
  infer_instance

/-- The workbook with the log lines after the header step and rows written one
below the other from row 2 on. -/
def offsetWorkbook (env : Env) (headers : List (String × String)) (rows : List (List GoValue)) :
    File × List Event :=
  writeSeq env.rowCheck (xlsxSetHeader env NewFile "Sheet1" headers, []) 2 rows

/-- The workbook with the log lines after the header step and groups of rows
each written from row 2 on. -/
def restartWorkbook (env : Env) (headers : List (String × String))
    (groups : List (List (List GoValue))) : File × List Event :=
  writeGroups env.rowCheck (xlsxSetHeader env NewFile "Sheet1" headers, []) groups

/-- The last node group, in fetch order, that has more than `i` records. -/
def lastGroupWith {R : Type} (data : List (NodeScanData R)) (i : Nat) : Option (NodeScanData R) :=
  data.reverse.find? (fun g => decide (i < g.ScanResults.length))

/-- Value `k` of the row of record `i` of the last node group that has more than
`i` records; nothing when no group has. -/
def lastGroupCell {R : Type} (value : NodeScanData R → R → List GoValue)
    (data : List (NodeScanData R)) (i k : Nat) : Option GoValue :=
  match lastGroupWith data i with
  | none => none
  | some g => (g.ScanResults[i]?).bind (fun rec => (value g rec)[k]?)

/-- An exporter's outcome when its fetch function failed with `e`: the empty
path and that error, no workbook, and nothing done but the fetch call and one
line of the log. -/
def FetchFailed (out : Outcome) (e : GoError) (function msg : String) : Prop :=
  out.path = "" ∧ out.err = some e ∧ out.xlsx = none ∧
    out.events = [.fetch function, .logError msg e]

/-- A row of values written at `row` below the header of `headers` fills the
columns that carry a header label and no others. -/
def FillsHeaderColumns (env : Env) (headers : List (String × String)) (value : List GoValue)
    (row : Nat) : Prop :=
  ∀ col,
    ((writeRow env.rowCheck (xlsxSetHeader env NewFile "Sheet1" headers, []) row value).1.cellAt
        col row).isSome
      = ((xlsxSetHeader env NewFile "Sheet1" headers).cellAt col 1).isSome

/-- The rows of a worksheet from row 2 on are those of the records of the node
groups, group after group: the row of record `i` of group `g` is row
`2 + resultsBefore data g + i` and holds the values `value` gives for the
record from column 1 on; every row from 2 to `1 + totalResults data` is the row of some record; two
records never share a row; and the rows below hold nothing. -/
def RowsContiguous {R : Type} (value : NodeScanData R → R → List GoValue)
    (data : List (NodeScanData R)) (f : File) : Prop :=
  (∀ g grp i rec, data[g]? = some grp → grp.ScanResults[i]? = some rec →
    ∀ c, f.cellAt c (2 + resultsBefore data g + i)
      = if 1 ≤ c then (value grp rec)[c - 1]? else none) ∧
  (∀ r, 2 ≤ r → r < 2 + totalResults data →
    ∃ g grp i rec, data[g]? = some grp ∧ grp.ScanResults[i]? = some rec ∧
      r = 2 + resultsBefore data g + i) ∧
  (∀ g grp i rec g2 grp2 i2 rec2,
    data[g]? = some grp → grp.ScanResults[i]? = some rec →
    data[g2]? = some grp2 → grp2.ScanResults[i2]? = some rec2 →
    2 + resultsBefore data g + i = 2 + resultsBefore data g2 + i2 → g = g2 ∧ i = i2) ∧
  (∀ c r, 2 + totalResults data ≤ r → f.cellAt c r = none)

/-- The header has a column labelled `cve_id` and one labelled `cve_severity`,
and the row of each vulnerability record whose row number is within the row
limit carries, in the column whose header label is `cve_id`, the record's CVE
id, and in the column whose header label is `cve_severity` its severity, each
as a cell keeps it (`cellValue`: a string longer than 32767 characters is cut
to that length, any other value is whole). -/
def CveColumns (data : List (NodeScanData Vulnerability)) (f : File) : Prop :=
  (∃ c, f.cellAt c 1 = some (.str "cve_id")) ∧
  (∃ c, f.cellAt c 1 = some (.str "cve_severity")) ∧
  ∀ g grp i v, data[g]? = some grp → grp.ScanResults[i]? = some v →
    2 + resultsBefore data g + i ≤ TotalRows →
    ∀ c,
      (f.cellAt c 1 = some (.str "cve_id") →
        f.cellAt c (2 + resultsBefore data g + i) = some (cellValue v.Cve_id)) ∧
      (f.cellAt c 1 = some (.str "cve_severity") →
        f.cellAt c (2 + resultsBefore data g + i) = some (cellValue v.Cve_severity))

/-- The row of every vulnerability record carries the record's CVE id in the
column whose header label is `cve_id` and its severity in the column whose
header label is `cve_severity`, whatever the record and its place. -/
def CveColumnsOfEveryRecord (data : List (NodeScanData Vulnerability)) (f : File) : Prop :=
  ∀ g grp i v, data[g]? = some grp → grp.ScanResults[i]? = some v →
    ∀ c,
      (f.cellAt c 1 = some (.str "cve_id") →
        f.cellAt c (2 + resultsBefore data g + i) = some v.Cve_id) ∧
      (f.cellAt c 1 = some (.str "cve_severity") →
        f.cellAt c (2 + resultsBefore data g + i) = some v.Cve_severity)

/-- The worksheet of an outcome holds the header row of `headers` and nothing
else, it is the workbook the exporter built, and the file saved, when the
temporary file could be created, is this workbook. -/
def HeaderOnly (env : Env) (params : ReportParams) (headers : List (String × String))
    (out : Outcome) : Prop :=
  ∃ f, out.xlsx = some f ∧ (∀ c r, f.cellAt c r = headerCell headers c r) ∧ f.dataRows = [] ∧
    ∀ temp, env.CreateTemp ("report-*-" ++ env.reportFileName params) = .ok temp →
      Event.SaveAs temp f ∈ out.events

/-- An exporter that built the workbook `f` ended by saving it: it returns what
`xlsxSave` returns on `f`, which is the path of the temporary file and no error
when the file could be created and the workbook saved. -/
def ExportCompletes (env : Env) (params : ReportParams) (out : Outcome) (f : File) : Prop :=
  out.xlsx = some f ∧ out.path = (xlsxSave env f params).1.1 ∧
    out.err = (xlsxSave env f params).1.2 ∧
    ∀ temp, env.CreateTemp ("report-*-" ++ env.reportFileName params) = .ok temp →
      env.SaveAs f temp = none →
      out.path = temp ∧ out.err = none ∧ Event.SaveAs temp f ∈ out.events

/-- For every `i`, row `i + 2` holds the values of record `i` of the last node
group that has more than `i` records, and nothing if no group has. -/
def RowsOfLastGroup {R : Type} (value : NodeScanData R → R → List GoValue)
    (data : List (NodeScanData R)) (f : File) : Prop :=
  ∀ i k, f.cellAt (k + 1) (i + 2) = lastGroupCell value data i k

/-! ## Test data -/

/-- An environment for examples: the five fetch functions return the given
results, files are created and saved without error, and `range` visits a map
from its last entry to its first. -/
def fixtureEnv (rowCheck : Bool)
    (vulnerabilities : Except GoError (Info Vulnerability))
    (secrets : Except GoError (Info Secret))
    (malwares : Except GoError (Info Malware))
    (compliances : Except GoError (Info Compliance))
    (cloudCompliances : Except GoError (Info CloudCompliance)) : Env :=
  { rowCheck := rowCheck
    VULNERABILITY := "vulnerability"
    SECRET := "secret"
    MALWARE := "malware"
    COMPLIANCE := "compliance"
    CLOUD_COMPLIANCE := "cloud_compliance"
    scanTypes_nodup := by decide
    getVulnerabilityData := fun _ => vulnerabilities
    getSecretData := fun _ => secrets
    getMalwareData := fun _ => malwares
    getComplianceData := fun _ => compliances
    getCloudComplianceData := fun _ => cloudCompliances
    reportFileName := fun params => params.Filters.ScanType ++ ".xlsx"
    CreateTemp := fun pattern => .ok ("/tmp/" ++ pattern)
    SaveAs := fun _ _ => none
    Close := fun _ => none
    mapRange := List.reverse
    mapRange_perm := fun m => List.reverse_perm m }

/-- Fetched data with no node group. -/
def noData {R : Type} : Except GoError (Info R) := .ok ⟨⟨[]⟩⟩

/-- A report request for a scan type. -/
def requestFor (scanType : String) : ReportParams := ⟨⟨scanType, []⟩⟩

/-- A `ScanInfo` for examples. -/
def fixtureScanInfo (node : String) : ScanInfo :=
  { ScanID := .str ("scan-" ++ node), NodeID := .str ("id-" ++ node), NodeName := .str node,
    HostName := .str ("host-" ++ node), ContainerName := .str "", KubernetesClusterName := .str "",
    NodeType := .str "host", UpdatedAt := .int 1700000000 }

/-- A vulnerability record for examples. -/
def fixtureVulnerability (id severity : String) : Vulnerability :=
  { Cve_attack_vector := .str "network", Cve_caused_by_package := .str "openssl",
    Cve_cvss_score := .float 0, Cve_description := .str "", Cve_fixed_in := .str "",
    Cve_id := .str id, Cve_link := .str "", Cve_severity := .str severity,
    Cve_overall_score := .float 0, Cve_type := .str "base", Masked := .bool false }

/-- A cloud-compliance record for examples. -/
def fixtureCloudCompliance (control : String) : CloudCompliance :=
  { ComplianceCheckType := .str "cis", Masked := .bool false, NodeID := .str "account",
    Status := .str "alarm", Type_ := .str "benchmark", Description := .str "", Title := .str "",
    ControlID := .str control }

/-- Vulnerability data for examples: three node groups of 2, 3 and 1 records. -/
def fixtureGroups : List (NodeScanData Vulnerability) :=
  [⟨fixtureScanInfo "n1",
      [fixtureVulnerability "CVE-2023-0001" "critical", fixtureVulnerability "CVE-2023-0002" "high"]⟩,
   ⟨fixtureScanInfo "n2",
      [fixtureVulnerability "CVE-2023-0003" "low", fixtureVulnerability "CVE-2023-0004" "medium",
       fixtureVulnerability "CVE-2023-0005" "high"]⟩,
   ⟨fixtureScanInfo "n3", [fixtureVulnerability "CVE-2023-0006" "critical"]⟩]

/-- Cloud-compliance data for examples: two node groups of one record each. -/
def fixtureCloudGroups : List (NodeScanData CloudCompliance) :=
  [⟨fixtureScanInfo "aws-1", [fixtureCloudCompliance "control-1"]⟩,
   ⟨fixtureScanInfo "aws-2", [fixtureCloudCompliance "control-2"]⟩]

/-- Vulnerability data for examples: one node group with more records than a
worksheet has rows below the header. -/
def fixtureManyVulnerabilities : List (NodeScanData Vulnerability) :=
  [⟨fixtureScanInfo "n1", List.replicate 1048576 (fixtureVulnerability "CVE-2023-0001" "critical")⟩]

/-- A string of 40000 characters. -/
def longString : String := String.mk (List.replicate 40000 'A')

/-- Vulnerability data for examples: one record whose CVE id has 40000
characters. -/
def fixtureLongCve : List (NodeScanData Vulnerability) :=
  [⟨fixtureScanInfo "n1",
      [{ fixtureVulnerability "CVE-2023-0001" "critical" with Cve_id := .str longString }]⟩]

/-- Cloud-compliance data for examples: one record whose title has 40000
characters. -/
def fixtureLongCloud : List (NodeScanData CloudCompliance) :=
  [⟨fixtureScanInfo "aws-1",
      [{ fixtureCloudCompliance "control-1" with Title := .str longString }]⟩]

/-- Cloud-compliance data for examples: one node group with more records than a
worksheet has rows below the header. -/
def fixtureManyCloud : List (NodeScanData CloudCompliance) :=
  [⟨fixtureScanInfo "aws-1", List.replicate 1048576 (fixtureCloudCompliance "control-1")⟩]

/-! ## Cell names: printing then reading -/

theorem LastIndexFunc_none (p : Char → Bool) (cs : List Char) (h : ∀ c ∈ cs, p c = false) :
    LastIndexFunc p cs = none := by
  induction cs with
  | nil => rfl
  | cons c cs ih =>
    have h1 : p c = false := h c (List.mem_cons_self c cs)
    have h2 : LastIndexFunc p cs = none := ih (fun d hd => h d (List.mem_cons_of_mem c hd))
    simp [LastIndexFunc, h1, h2]

theorem digitChar_toNat (d : Nat) (hd : d < 10) : (Char.ofNat (48 + d)).toNat = 48 + d := by
  interval_cases d <;> rfl

theorem itoaLoop_append (fuel n : Nat) (acc : List Char) :
    itoaLoop fuel n acc = itoaLoop fuel n [] ++ acc := by
  induction fuel generalizing n acc with
  | zero => simp [itoaLoop]
  | succ fuel ih =>
    unfold itoaLoop
    by_cases h : n / 10 = 0
    · simp [h]
    · simp only [h, if_false]
      rw [ih (n / 10) (Char.ofNat (48 + n % 10) :: acc), ih (n / 10) [Char.ofNat (48 + n % 10)]]
      simp

theorem parseDigits_append_digit (l : List Char) (a d : Nat) (hd : d < 10) :
    parseDigits (l ++ [Char.ofNat (48 + d)]) a = (parseDigits l a).map (fun v => 10 * v + d) := by
  induction l generalizing a with
  | nil =>
    have h := digitChar_toNat d hd
    simp [parseDigits, h]
    omega
  | cons c cs ih =>
    simp only [List.cons_append, parseDigits]
    by_cases hc : 48 ≤ c.toNat ∧ c.toNat ≤ 57
    · simp only [hc, and_self, if_true]
      exact ih _
    · simp [hc]

theorem parseDigits_itoaLoop (fuel n : Nat) (h : n < fuel) :
    parseDigits (itoaLoop fuel n []) 0 = some n := by
  induction fuel generalizing n with
  | zero => omega
  | succ fuel ih =>
    unfold itoaLoop
    have hm : n % 10 < 10 := Nat.mod_lt n (by decide)
    by_cases h0 : n / 10 = 0
    · have hn : n < 10 := by omega
      have hmod : n % 10 = n := Nat.mod_eq_of_lt hn
      have hc := digitChar_toNat n hn
      simp [h0, hmod, parseDigits, hc]
      omega
    · simp only [h0, if_false]
      rw [itoaLoop_append, parseDigits_append_digit _ _ _ hm, ih (n / 10) (by omega)]
      simp
      omega

theorem itoaLoop_digits (fuel n : Nat) :
    ∀ c ∈ itoaLoop (fuel + 1) n [], 48 ≤ c.toNat ∧ c.toNat ≤ 57 := by
  induction fuel generalizing n with
  | zero =>
    have hm : n % 10 < 10 := Nat.mod_lt n (by decide)
    have hc := digitChar_toNat (n % 10) hm
    intro c hcm
    by_cases h0 : n / 10 = 0 <;> simp [itoaLoop, h0] at hcm <;> subst hcm <;> omega
  | succ fuel ih =>
    have hm : n % 10 < 10 := Nat.mod_lt n (by decide)
    have hc := digitChar_toNat (n % 10) hm
    intro c hcm
    unfold itoaLoop at hcm
    by_cases h0 : n / 10 = 0
    · simp [h0] at hcm
      subst hcm
      omega
    · simp only [h0, if_false] at hcm
      rw [itoaLoop_append] at hcm
      rcases List.mem_append.mp hcm with h1 | h1
      · exact ih (n / 10) c h1
      · simp at h1
        subst h1
        omega

theorem Itoa_digits (n : Nat) : ∀ c ∈ Itoa n, 48 ≤ c.toNat ∧ c.toNat ≤ 57 :=
  itoaLoop_digits n n

theorem Itoa_ne_nil (n : Nat) : Itoa n ≠ [] := by
  unfold Itoa itoaLoop
  by_cases h0 : n / 10 = 0
  · simp [h0]
  · simp only [h0, if_false]
    rw [itoaLoop_append]
    simp

theorem Atoi_Itoa (n : Nat) (h : n < 2 ^ 63) : Atoi (Itoa n) = some (n : Int) := by
  have hd := Itoa_digits n
  have hp : parseDigits (Itoa n) 0 = some n := parseDigits_itoaLoop (n + 1) n (by omega)
  cases hI : Itoa n with
  | nil => exact absurd hI (Itoa_ne_nil n)
  | cons c cs =>
    rw [hI] at hd hp
    have hc := hd c (List.mem_cons_self c cs)
    have h43 : ¬ c.toNat = 43 := by omega
    have h45 : ¬ c.toNat = 45 := by omega
    have h9 : n < 9223372036854775808 := by simpa using h
    simp [Atoi, h43, h45, hp, h9]

theorem Atoi_Itoa_big (n : Nat) (h : ¬ n < 2 ^ 63) : Atoi (Itoa n) = none := by
  have hd := Itoa_digits n
  have hp : parseDigits (Itoa n) 0 = some n := parseDigits_itoaLoop (n + 1) n (by omega)
  cases hI : Itoa n with
  | nil => exact absurd hI (Itoa_ne_nil n)
  | cons c cs =>
    rw [hI] at hd hp
    have hc := hd c (List.mem_cons_self c cs)
    have h43 : ¬ c.toNat = 43 := by omega
    have h45 : ¬ c.toNat = 45 := by omega
    have h9 : ¬ n < 9223372036854775808 := by simpa using h
    simp [Atoi, h43, h45, hp, h9]

theorem alpha_digit (c : Char) (h : 48 ≤ c.toNat ∧ c.toNat ≤ 57) : alpha c = false := by
  simp [alpha]
  omega

theorem columnNumberLoop_letter (c : Nat) (h1 : 1 ≤ c) (h26 : c ≤ 26) :
    columnNumberLoop c c [] = [Char.ofNat (c + 64)] := by
  interval_cases c <;> rfl

theorem letter_toNat (c : Nat) (h1 : 1 ≤ c) (h26 : c ≤ 26) : (Char.ofNat (c + 64)).toNat = c + 64 := by
  interval_cases c <;> rfl

theorem SplitCellName_letter (ch : Char) (r : Nat) (hch : 65 ≤ ch.toNat ∧ ch.toNat ≤ 90)
    (hr1 : 1 ≤ r) (hr : r < 2 ^ 63) :
    SplitCellName (String.mk (ch :: Itoa r)) = .ok ([ch], r) := by
  have ha : alpha ch = true := by
    simp [alpha]
    omega
  have hl : LastIndexFunc alpha (Itoa r) = none :=
    LastIndexFunc_none alpha (Itoa r) (fun c hc => alpha_digit c (Itoa_digits r c hc))
  have hne : 0 < (Itoa r).length := List.length_pos.mpr (Itoa_ne_nil r)
  have h36 : ¬ ch.toNat = 36 := by omega
  have hrpos : (0 : Int) < (r : Int) := by exact_mod_cast hr1
  simp [SplitCellName, ha, LastIndexFunc, hl, hne, Atoi_Itoa r hr, h36, hrpos]

theorem ColumnNameToNumber_letter (ch : Char) (hch : 65 ≤ ch.toNat ∧ ch.toNat ≤ 90) :
    ColumnNameToNumber [ch] = .ok (ch.toNat - 64) := by
  have h : ¬ (ch.toNat - 65 + 1 > MaxColumns) := by
    unfold MaxColumns
    omega
  have e : ch.toNat - 65 + 1 = ch.toNat - 64 := by omega
  simp [ColumnNameToNumber, columnNameLoop, hch, e]
  unfold MaxColumns
  omega

/-- Printing the coordinates of a cell in one of the first 26 columns and
reading the name back gives the coordinates. -/
theorem CoordinatesToCellName_ok (rc : Bool) (c r : Nat) (h1 : 1 ≤ c) (h26 : c ≤ 26) (hr1 : 1 ≤ r)
    (hr : r ≤ TotalRows) :
    CoordinatesToCellName rc c r = .ok (String.mk (Char.ofNat (c + 64) :: Itoa r)) := by
  have hc : ¬ (c < 1 ∨ c > MaxColumns) := by
    unfold MaxColumns
    omega
  have hcr : ¬ (c < 1 ∨ r < 1) := by omega
  have hrt : ¬ (rc = true ∧ r > TotalRows) := by omega
  unfold CoordinatesToCellName ColumnNumberToName
  rw [if_neg hcr, if_neg hrt, if_neg hc, columnNumberLoop_letter c h1 h26]
  rfl

theorem CellNameToCoordinates_letter (c r : Nat) (h1 : 1 ≤ c) (h26 : c ≤ 26) (hr1 : 1 ≤ r)
    (hr : r ≤ TotalRows) :
    CellNameToCoordinates (String.mk (Char.ofNat (c + 64) :: Itoa r)) = .ok (c, r) := by
  have ht := letter_toNat c h1 h26
  have hch : 65 ≤ (Char.ofNat (c + 64)).toNat ∧ (Char.ofNat (c + 64)).toNat ≤ 90 := by omega
  have hr63 : r < 2 ^ 63 := by
    unfold TotalRows at hr
    have : (1048576 : Nat) < 2 ^ 63 := by norm_num
    omega
  have hrt : ¬ (r > TotalRows) := by omega
  simp [CellNameToCoordinates, SplitCellName_letter _ r hch hr1 hr63, hrt,
    ColumnNameToNumber_letter _ hch, ht]

/-- A cell name of column 1 whose row is past `TotalRows` does not parse. -/
theorem CellNameToCoordinates_past (r : Nat) (h : TotalRows < r) :
    ∃ err, CellNameToCoordinates (String.mk (Char.ofNat (1 + 64) :: Itoa r)) = .error err := by
  have ht := letter_toNat 1 (by omega) (by omega)
  have hch : 65 ≤ (Char.ofNat (1 + 64)).toNat ∧ (Char.ofNat (1 + 64)).toNat ≤ 90 := by omega
  unfold CellNameToCoordinates
  by_cases h63 : r < 2 ^ 63
  · rw [SplitCellName_letter _ r hch (by omega) h63]
    exact ⟨.ErrMaxRows, by simp [h]⟩
  · have ha : alpha (Char.ofNat (1 + 64)) = true := by decide
    have hl : LastIndexFunc alpha (Itoa r) = none :=
      LastIndexFunc_none alpha (Itoa r) (fun c hc => alpha_digit c (Itoa_digits r c hc))
    have hne : 0 < (Itoa r).length := List.length_pos.mpr (Itoa_ne_nil r)
    have hs : SplitCellName (String.mk (Char.ofNat (1 + 64) :: Itoa r))
        = .error (.invalidCellName (String.mk (Char.ofNat (1 + 64) :: Itoa r))) := by
      simp [SplitCellName, ha, LastIndexFunc, hl, hne, Atoi_Itoa_big r h63]
    rw [hs]
    exact ⟨_, rfl⟩

/-- What `CoordinatesToCellName` gives for column 1: an error, or the name made
of the letter of column 1 and the row number. -/
theorem CoordinatesToCellName_one (rc : Bool) (row : Nat) :
    (∃ err, CoordinatesToCellName rc 1 row = .error err) ∨
    (1 ≤ row ∧ CoordinatesToCellName rc 1 row = .ok (String.mk (Char.ofNat (1 + 64) :: Itoa row))) := by
  unfold CoordinatesToCellName
  by_cases h1 : (1 < 1 ∨ row < 1)
  · exact Or.inl ⟨_, if_pos h1⟩
  · rw [if_neg h1]
    by_cases h2 : rc = true ∧ row > TotalRows
    · exact Or.inl ⟨_, if_pos h2⟩
    · rw [if_neg h2]
      exact Or.inr ⟨by omega, rfl⟩

/-- `SetSheetRow` called with the empty cell name writes nothing. -/
theorem SetSheetRow_empty (f : File) (rc : Bool) (value : List GoValue) :
    (f.SetSheetRow rc "Sheet1" "" value).1 = f := rfl

/-! ## Writing cells -/

theorem cellAt_cons (l : List (Nat × Nat × GoValue)) (c r : Nat) (v : GoValue) (c1 r1 : Nat) :
    File.cellAt ⟨(c, r, v) :: l⟩ c1 r1 = if c = c1 ∧ r = r1 then some v else File.cellAt ⟨l⟩ c1 r1 := by
  unfold File.cellAt
  by_cases h : c = c1 ∧ r = r1
  · simp [List.find?, h]
  · have hb : (c == c1 && r == r1) = false := by
      simp only [Bool.and_eq_false_iff, beq_eq_false_iff_ne]
      by_cases hc : c = c1
      · right
        exact fun hr => h ⟨hc, hr⟩
      · left
        exact hc
    simp [List.find?, hb, h]

theorem SetCellValue_ok (f : File) (cell : String) (v : GoValue) (c r : Nat)
    (h : CellNameToCoordinates cell = .ok (c, r)) :
    f.SetCellValue "Sheet1" cell v = (⟨(c, r, cellValue v) :: f.Sheet1⟩, none) := by
  simp [File.SetCellValue, h]

/-- A string that is not longer than a cell can hold is kept whole. -/
theorem cellValue_short (s : String) (h : s.length ≤ TotalCellChars) :
    cellValue (.str s) = .str s := by
  have hl : s.data.length ≤ TotalCellChars := h
  show GoValue.str (String.mk (s.data.take TotalCellChars)) = .str s
  rw [List.take_of_length_le hl]

/-- A string longer than a cell can hold is not kept whole. -/
theorem cellValue_long (s : String) (h : TotalCellChars < s.length) :
    cellValue (.str s) ≠ .str s := by
  intro heq
  have hl : TotalCellChars < s.data.length := h
  have heq2 : GoValue.str (String.mk (s.data.take TotalCellChars)) = .str s := heq
  have h1 : String.mk (s.data.take TotalCellChars) = s := GoValue.str.inj heq2
  have h2 : (String.mk (s.data.take TotalCellChars)).data.length = s.data.length := by
    rw [h1]
  simp only [List.length_take] at h2
  omega

theorem setSheetCellsLoop_cellAt (rc : Bool) (r : Nat) (hr1 : 1 ≤ r) (hr : r ≤ TotalRows) (vs : List GoValue) :
    ∀ (f : File) (i : Nat), i + vs.length ≤ 26 →
      ∀ c1 r1, (setSheetCellsLoop rc "Sheet1" 1 r f i vs).1.cellAt c1 r1 =
        if r1 = r ∧ 1 + i ≤ c1 ∧ c1 < 1 + i + vs.length then (vs.map cellValue)[c1 - (1 + i)]?
        else f.cellAt c1 r1 := by
  induction vs with
  | nil =>
    intro f i _ c1 r1
    have h0 : ¬ (r1 = r ∧ 1 + i ≤ c1 ∧ c1 < 1 + i + ([] : List GoValue).length) := by
      simp only [List.length_nil]
      omega
    rw [if_neg h0]
    rfl
  | cons v vs ih =>
    intro f i hlen c1 r1
    simp only [List.length_cons] at hlen
    have hname := CoordinatesToCellName_ok rc (1 + i) r (by omega) (by omega) hr1 hr
    have hparse := CellNameToCoordinates_letter (1 + i) r (by omega) (by omega) hr1 hr
    unfold setSheetCellsLoop
    rw [hname]
    simp only []
    rw [SetCellValue_ok f _ v (1 + i) r hparse]
    simp only []
    rw [ih ⟨(1 + i, r, cellValue v) :: f.Sheet1⟩ (i + 1) (by omega) c1 r1, cellAt_cons]
    simp only [List.length_cons, List.map_cons]
    by_cases hrr : r1 = r
    · subst hrr
      by_cases hc : c1 = 1 + i
      · subst hc
        have h1 : ¬ (r1 = r1 ∧ 1 + (i + 1) ≤ 1 + i ∧ 1 + i < 1 + (i + 1) + vs.length) := by omega
        have h2 : (r1 = r1 ∧ 1 + i ≤ 1 + i ∧ 1 + i < 1 + i + (vs.length + 1)) := by omega
        simp [h1, h2]
      · by_cases hin : 1 + (i + 1) ≤ c1 ∧ c1 < 1 + (i + 1) + vs.length
        · have h1 : (r1 = r1 ∧ 1 + (i + 1) ≤ c1 ∧ c1 < 1 + (i + 1) + vs.length) := ⟨rfl, hin⟩
          have h2 : (r1 = r1 ∧ 1 + i ≤ c1 ∧ c1 < 1 + i + (vs.length + 1)) := by omega
          have e : c1 - (1 + i) = (c1 - (1 + (i + 1))) + 1 := by omega
          rw [if_pos h1, if_pos h2, e, List.getElem?_cons_succ]
        · have h1 : ¬ (r1 = r1 ∧ 1 + (i + 1) ≤ c1 ∧ c1 < 1 + (i + 1) + vs.length) := fun h => hin h.2
          have h2 : ¬ (r1 = r1 ∧ 1 + i ≤ c1 ∧ c1 < 1 + i + (vs.length + 1)) := by omega
          have h3 : ¬ (1 + i = c1 ∧ r1 = r1) := fun h => hc h.1.symm
          rw [if_neg h1, if_neg h2, if_neg h3]
    · have h1 : ¬ (r1 = r ∧ 1 + (i + 1) ≤ c1 ∧ c1 < 1 + (i + 1) + vs.length) := fun h => hrr h.1
      have h2 : ¬ (r1 = r ∧ 1 + i ≤ c1 ∧ c1 < 1 + i + (vs.length + 1)) := fun h => hrr h.1
      have h3 : ¬ (1 + i = c1 ∧ r = r1) := fun h => hrr h.2.symm
      rw [if_neg h1, if_neg h2, if_neg h3]

/-- A record whose row is past `TotalRows` leaves the workbook as it was. -/
theorem writeRow_skip (rc : Bool) (st : File × List Event) (row : Nat) (value : List GoValue)
    (h : TotalRows < row) : (writeRow rc st row value).1 = st.1 := by
  unfold writeRow
  rcases CoordinatesToCellName_one rc row with ⟨err, he⟩ | ⟨_, hok⟩
  · rw [he]
    rfl
  · rw [hok]
    simp only []
    unfold File.SetSheetRow
    obtain ⟨err, he⟩ := CellNameToCoordinates_past row h
    rw [he]

/-- A record whose cell name cannot be computed leaves the workbook as it was
and adds one line to the log. -/
theorem writeRow_error (rc : Bool) (st : File × List Event) (row : Nat) (value : List GoValue)
    (err : GoError) (h : CoordinatesToCellName rc 1 row = .error err) :
    writeRow rc st row value = (st.1, st.2 ++ [.logError "error generating cell name" err]) := by
  unfold writeRow
  rw [h]
  rfl

/-- The cell a row of values puts at a column and a row: value `c - 1` of the row
when the row number is the one written. -/
theorem writeRow_cellAt (rc : Bool) (st : File × List Event) (row : Nat) (value : List GoValue)
    (hrow : 1 ≤ row) (hlen : value.length ≤ 26) (c1 r1 : Nat) :
    (writeRow rc st row value).1.cellAt c1 r1 =
      if r1 = row ∧ row ≤ TotalRows ∧ 1 ≤ c1 ∧ c1 ≤ value.length then (value.map cellValue)[c1 - 1]?
      else st.1.cellAt c1 r1 := by
  by_cases hr : row ≤ TotalRows
  · unfold writeRow
    rw [CoordinatesToCellName_ok rc 1 row (by omega) (by omega) hrow hr]
    simp only []
    unfold File.SetSheetRow
    rw [CellNameToCoordinates_letter 1 row (by omega) (by omega) hrow hr]
    simp only []
    rw [setSheetCellsLoop_cellAt rc row hrow hr value st.1 0 (by omega) c1 r1]
    by_cases h : r1 = row ∧ 1 + 0 ≤ c1 ∧ c1 < 1 + 0 + value.length
    · have h2 : r1 = row ∧ row ≤ TotalRows ∧ 1 ≤ c1 ∧ c1 ≤ value.length := by omega
      rw [if_pos h, if_pos h2]
    · have h2 : ¬ (r1 = row ∧ row ≤ TotalRows ∧ 1 ≤ c1 ∧ c1 ≤ value.length) := by omega
      rw [if_neg h, if_neg h2]
  · have h2 : ¬ (r1 = row ∧ row ≤ TotalRows ∧ 1 ≤ c1 ∧ c1 ≤ value.length) := fun h => hr h.2.1
    rw [if_neg h2, writeRow_skip rc st row value (by omega)]

/-! ## The header row -/

theorem keysInOrder_get (headers : List (String × String)) (h : keysInOrder headers)
    (i : Nat) (e : String × String) (he : headers[i]? = some e) :
    CellNameToCoordinates e.1 = .ok (i + 1, 1) := by
  have hi : i < headers.length := by
    by_contra hcon
    rw [List.getElem?_eq_none (by omega)] at he
    exact absurd he (by simp)
  have h1 : (headers.map (fun e => CellNameToCoordinates e.1))[i]? = some (CellNameToCoordinates e.1) := by
    rw [List.getElem?_map, he]
    rfl
  unfold keysInOrder at h
  rw [h, List.getElem?_map, List.getElem?_range hi] at h1
  simpa using h1.symm

theorem keysInOrder_nodup (headers : List (String × String)) (h : keysInOrder headers) :
    (headers.map (fun e => CellNameToCoordinates e.1)).Nodup := by
  unfold keysInOrder at h
  rw [h]
  refine List.Nodup.map ?_ (List.nodup_range _)
  intro a b hab
  simp only [Except.ok.injEq, Prod.mk.injEq, add_left_inj, and_true] at hab
  exact hab

theorem setHeader_fold_cellAt (es : List (String × String)) :
    (es.map (fun e => CellNameToCoordinates e.1)).Nodup →
    (∀ e ∈ es, ∃ cr, CellNameToCoordinates e.1 = .ok cr) →
    ∀ (f : File) (c r : Nat),
      (∀ e ∈ es, CellNameToCoordinates e.1 = .ok (c, r) →
        (es.foldl (fun xlsx kv => (File.SetCellValue xlsx "Sheet1" kv.1 (.str kv.2)).1) f).cellAt c r
          = some (cellValue (.str e.2))) ∧
      ((∀ e ∈ es, CellNameToCoordinates e.1 ≠ .ok (c, r)) →
        (es.foldl (fun xlsx kv => (File.SetCellValue xlsx "Sheet1" kv.1 (.str kv.2)).1) f).cellAt c r
          = f.cellAt c r) := by
  induction es with
  | nil =>
    intro _ _ f c r
    exact ⟨fun e he => absurd he (List.not_mem_nil e), fun _ => rfl⟩
  | cons e0 es ih =>
    intro hnd hok f c r
    rw [List.map_cons, List.nodup_cons] at hnd
    obtain ⟨⟨c0, r0⟩, h0⟩ := hok e0 (List.mem_cons_self _ _)
    have hok2 : ∀ e ∈ es, ∃ cr, CellNameToCoordinates e.1 = .ok cr :=
      fun e he => hok e (List.mem_cons_of_mem _ he)
    have hstep : (File.SetCellValue f "Sheet1" e0.1 (.str e0.2)).1
        = ⟨(c0, r0, cellValue (.str e0.2)) :: f.Sheet1⟩ := by
      rw [SetCellValue_ok f e0.1 _ c0 r0 h0]
    have ih2 := ih hnd.2 hok2 ⟨(c0, r0, cellValue (.str e0.2)) :: f.Sheet1⟩ c r
    simp only [List.foldl_cons]
    rw [hstep]
    constructor
    · intro e he hc
      rcases List.mem_cons.mp he with heq | hin
      · subst heq
        have hnot : ∀ e2 ∈ es, CellNameToCoordinates e2.1 ≠ .ok (c, r) := by
          intro e2 he2 hc2
          apply hnd.1
          rw [hc, ← hc2]
          exact List.mem_map_of_mem (fun e => CellNameToCoordinates e.1) he2
        rw [ih2.2 hnot, cellAt_cons]
        rw [hc] at h0
        simp only [Except.ok.injEq, Prod.mk.injEq] at h0
        rw [if_pos ⟨h0.1.symm, h0.2.symm⟩]
      · exact ih2.1 e hin hc
    · intro hnone
      have hnot : ∀ e2 ∈ es, CellNameToCoordinates e2.1 ≠ .ok (c, r) :=
        fun e2 he2 => hnone e2 (List.mem_cons_of_mem _ he2)
      rw [ih2.2 hnot, cellAt_cons]
      have hne : ¬ (c0 = c ∧ r0 = r) := by
        intro hcr
        apply hnone e0 (List.mem_cons_self _ _)
        rw [h0, hcr.1, hcr.2]
      rw [if_neg hne]

/-- After the header step on a new workbook, the worksheet holds the labels of
the header map in row 1, in the columns its keys name, and nothing else:
whatever the order in which the map is visited. -/
theorem xlsxSetHeader_cellAt (env : Env) (headers : List (String × String))
    (h : keysInOrder headers) (hs : labelsShort headers) (c r : Nat) :
    (xlsxSetHeader env NewFile "Sheet1" headers).cellAt c r = headerCell headers c r := by
  have hperm := env.mapRange_perm headers
  have hnd : ((env.mapRange headers).map (fun e => CellNameToCoordinates e.1)).Nodup :=
    (List.Perm.nodup_iff (hperm.map _)).mpr (keysInOrder_nodup headers h)
  have hok : ∀ e ∈ env.mapRange headers, ∃ cr, CellNameToCoordinates e.1 = .ok cr := by
    intro e he
    have hm : e ∈ headers := hperm.mem_iff.mp he
    obtain ⟨i, hq⟩ := List.getElem?_of_mem hm
    exact ⟨_, keysInOrder_get headers h i e hq⟩
  have key := setHeader_fold_cellAt (env.mapRange headers) hnd hok NewFile c r
  unfold xlsxSetHeader headerCell
  by_cases hin : r = 1 ∧ 1 ≤ c ∧ c ≤ headers.length
  · obtain ⟨hr, hc1, hc2⟩ := hin
    have hlt : c - 1 < headers.length := by omega
    obtain ⟨e, hq⟩ : ∃ e, headers[c - 1]? = some e := ⟨_, List.getElem?_eq_getElem hlt⟩
    have hcoord := keysInOrder_get headers h (c - 1) e hq
    have e1 : c - 1 + 1 = c := by omega
    rw [e1, ← hr] at hcoord
    have hm : e ∈ env.mapRange headers :=
      hperm.mem_iff.mpr (List.getElem?_mem hq)
    rw [key.1 e hm hcoord, if_pos ⟨hr, hc1⟩, hq, cellValue_short e.2 (hs e (List.getElem?_mem hq))]
    rfl
  · have hnone : ∀ e ∈ env.mapRange headers, CellNameToCoordinates e.1 ≠ .ok (c, r) := by
      intro e he hc
      have hm : e ∈ headers := hperm.mem_iff.mp he
      obtain ⟨i, hq⟩ := List.getElem?_of_mem hm
      have hi : i < headers.length := by
        by_contra hcon
        rw [List.getElem?_eq_none (by omega)] at hq
        exact absurd hq (by simp)
      have hcoord := keysInOrder_get headers h i e hq
      rw [hc] at hcoord
      simp only [Except.ok.injEq, Prod.mk.injEq] at hcoord
      omega
    rw [key.2 hnone]
    by_cases h1 : r = 1 ∧ 1 ≤ c
    · have hge : headers.length ≤ c - 1 := by omega
      rw [if_pos h1, List.getElem?_eq_none hge]
      rfl
    · rw [if_neg h1]
      rfl

theorem vulnerabilityHeader_keys : keysInOrder vulnerabilityHeader := by decide

theorem secretHeader_keys : keysInOrder secretHeader := by decide

theorem malwareHeader_keys : keysInOrder malwareHeader := by decide

theorem complianceHeader_keys : keysInOrder complianceHeader := by decide

theorem vulnerabilityHeader_short : labelsShort vulnerabilityHeader := by decide

theorem secretHeader_short : labelsShort secretHeader := by decide

theorem malwareHeader_short : labelsShort malwareHeader := by decide

theorem complianceHeader_short : labelsShort complianceHeader := by decide

/-! ## The record loops -/

theorem inner_eq_writeSeq {R : Type} (rc : Bool) (value : NodeScanData R → R → List GoValue)
    (g : NodeScanData R) (o : Nat) (rs : List R) :
    ∀ (i : Nat) (st : File × List Event),
      forRangeFrom (fun acc i v => writeRow rc acc (o + i + 2) (value g v)) i rs st
        = writeSeq rc st (o + i + 2) (rs.map (value g)) := by
  induction rs with
  | nil => intro i st; rfl
  | cons x rs ih =>
    intro i st
    simp only [forRangeFrom, List.map_cons, writeSeq]
    rw [ih (i + 1)]
    have e : o + (i + 1) + 2 = o + i + 2 + 1 := by omega
    rw [e]

theorem inner_eq_writeSeq_noOffset {R : Type} (rc : Bool) (value : NodeScanData R → R → List GoValue)
    (g : NodeScanData R) (rs : List R) :
    ∀ (i : Nat) (st : File × List Event),
      forRangeFrom (fun acc i v => writeRow rc acc (i + 2) (value g v)) i rs st
        = writeSeq rc st (i + 2) (rs.map (value g)) := by
  induction rs with
  | nil => intro i st; rfl
  | cons x rs ih =>
    intro i st
    simp only [forRangeFrom, List.map_cons, writeSeq]
    rw [ih (i + 1)]

theorem writeSeq_append (rc : Bool) (a b : List (List GoValue)) :
    ∀ (st : File × List Event) (row : Nat),
      writeSeq rc st row (a ++ b) = writeSeq rc (writeSeq rc st row a) (row + a.length) b := by
  induction a with
  | nil => intro st row; rfl
  | cons v a ih =>
    intro st row
    change writeSeq rc (writeRow rc st row v) (row + 1) (a ++ b)
      = writeSeq rc (writeSeq rc (writeRow rc st row v) (row + 1) a) (row + (a.length + 1)) b
    rw [ih]
    have e : row + 1 + a.length = row + (a.length + 1) := by omega
    rw [e]

theorem flatRows_length {R : Type} (value : NodeScanData R → R → List GoValue)
    (data : List (NodeScanData R)) : (flatRows value data).length = totalResults data := by
  induction data with
  | nil => rfl
  | cons g gs ih => simp [flatRows, totalResults, groupRows, ih]

/-- The nested loops with `offset` write the rows of all groups one below the
other from row `offset + 2` on, and leave `offset` raised by their number. -/
theorem offsetLoop_eq {R : Type} (rc : Bool) (value : NodeScanData R → R → List GoValue)
    (data : List (NodeScanData R)) :
    ∀ (j : Nat) (st : File × List Event) (o : Nat),
      forRangeFrom
        (fun (st : (File × List Event) × Nat) _ nodeScanData =>
          (forRange nodeScanData.ScanResults
            (fun acc i v => writeRow rc acc (st.2 + i + 2) (value nodeScanData v)) st.1,
           st.2 + nodeScanData.ScanResults.length)) j data (st, o)
        = (writeSeq rc st (o + 2) (flatRows value data), o + totalResults data) := by
  induction data with
  | nil => intro j st o; rfl
  | cons g gs ih =>
    intro j st o
    simp only [forRange] at ih ⊢
    simp only [forRangeFrom]
    rw [inner_eq_writeSeq rc value g o g.ScanResults 0 st, ih]
    simp only [flatRows, totalResults, groupRows]
    rw [writeSeq_append]
    simp only [List.length_map]
    have e1 : o + 0 + 2 = o + 2 := by omega
    have e2 : o + g.ScanResults.length + 2 = o + 2 + g.ScanResults.length := by omega
    have e3 : o + g.ScanResults.length + totalResults gs = o + (g.ScanResults.length + totalResults gs) := by
      omega
    rw [e1, e2, e3]

/-- The nested loops without `offset` write the rows of each group from row 2
on, group after group. -/
theorem restartLoop_eq {R : Type} (rc : Bool) (value : NodeScanData R → R → List GoValue)
    (data : List (NodeScanData R)) :
    ∀ (j : Nat) (st : File × List Event),
      forRangeFrom
        (fun (st : File × List Event) _ data =>
          forRange data.ScanResults (fun acc i c => writeRow rc acc (i + 2) (value data c)) st)
        j data st
        = writeGroups rc st (data.map (groupRows value)) := by
  induction data with
  | nil => intro j st; rfl
  | cons g gs ih =>
    intro j st
    simp only [forRange] at ih ⊢
    simp only [forRangeFrom, List.map_cons, writeGroups]
    rw [inner_eq_writeSeq_noOffset rc value g g.ScanResults 0 st, ih]
    rfl

theorem overlay_none_left (b : Option GoValue) : overlay none b = b := rfl

theorem seqCell_below (vs : List (List GoValue)) (base c r : Nat) (h : r < base) :
    seqCell vs base c r = none := by
  unfold seqCell
  rw [if_neg (by omega)]

theorem seqCell_cons_succ (v : List GoValue) (vs : List (List GoValue)) (base c r : Nat)
    (h : base < r) : seqCell (v :: vs) base c r = seqCell vs (base + 1) c r := by
  unfold seqCell
  have e : r - base = (r - (base + 1)) + 1 := by omega
  by_cases h1 : r ≤ TotalRows ∧ 1 ≤ c
  · rw [if_pos (by omega), if_pos (by omega), e, List.getElem?_cons_succ]
  · rw [if_neg (by omega), if_neg (by omega)]

/-- What a worksheet holds after rows were written one below the other. -/
theorem writeSeq_cellAt (rc : Bool) (vs : List (List GoValue)) :
    (∀ v ∈ vs, v.length ≤ 26) →
    ∀ (st : File × List Event) (base : Nat), 1 ≤ base → ∀ c r,
      (writeSeq rc st base vs).1.cellAt c r
        = overlay (seqCell (vs.map (List.map cellValue)) base c r) (st.1.cellAt c r) := by
  induction vs with
  | nil =>
    intro _ st base _ c r
    have e : seqCell [] base c r = none := by
      unfold seqCell
      by_cases h : base ≤ r ∧ r ≤ TotalRows ∧ 1 ≤ c
      · rw [if_pos h]
        rfl
      · rw [if_neg h]
    rw [List.map_nil, e]
    rfl
  | cons v vs ih =>
    intro hlen st base hbase c r
    have hv : v.length ≤ 26 := hlen v (List.mem_cons_self _ _)
    have hrest : ∀ w ∈ vs, w.length ≤ 26 := fun w hw => hlen w (List.mem_cons_of_mem _ hw)
    simp only [writeSeq, List.map_cons]
    rw [ih hrest (writeRow rc st base v) (base + 1) (by omega) c r, writeRow_cellAt rc st base v hbase hv c r]
    by_cases hlt : base < r
    · rw [seqCell_cons_succ _ _ base c r hlt, if_neg (by omega)]
    · rw [seqCell_below _ (base + 1) c r (by omega), overlay_none_left]
      by_cases heq : r = base
      · subst heq
        have hs : seqCell (v.map cellValue :: vs.map (List.map cellValue)) r c r
            = if r ≤ TotalRows ∧ 1 ≤ c then (v.map cellValue)[c - 1]? else none := by
          unfold seqCell
          by_cases hin : r ≤ TotalRows ∧ 1 ≤ c
          · rw [if_pos (show r ≤ r ∧ r ≤ TotalRows ∧ 1 ≤ c from ⟨le_refl r, hin⟩), if_pos hin]
            simp
          · rw [if_neg (fun h => hin h.2), if_neg hin]
        rw [hs]
        by_cases hin : r ≤ TotalRows ∧ 1 ≤ c
        · by_cases hc : c ≤ v.length
          · have hA : r = r ∧ r ≤ TotalRows ∧ 1 ≤ c ∧ c ≤ v.length := ⟨rfl, hin.1, hin.2, hc⟩
            have hlt2 : c - 1 < (v.map cellValue).length := by
              rw [List.length_map]
              omega
            rw [if_pos hA, if_pos hin, List.getElem?_eq_getElem hlt2]
            rfl
          · have hA : ¬ (r = r ∧ r ≤ TotalRows ∧ 1 ≤ c ∧ c ≤ v.length) := fun h => hc h.2.2.2
            have hge : (v.map cellValue).length ≤ c - 1 := by
              rw [List.length_map]
              omega
            rw [if_neg hA, if_pos hin, List.getElem?_eq_none hge]
            rfl
        · have hA : ¬ (r = r ∧ r ≤ TotalRows ∧ 1 ≤ c ∧ c ≤ v.length) :=
            fun h => hin ⟨h.2.1, h.2.2.1⟩
          rw [if_neg hA, if_neg hin]
          rfl
      · rw [seqCell_below _ base c r (by omega), if_neg (by omega)]
        rfl

/-- What a worksheet holds after groups of rows were each written from row 2 on. -/
theorem writeGroups_cellAt (rc : Bool) (groups : List (List (List GoValue))) :
    (∀ vs ∈ groups, ∀ v ∈ vs, v.length ≤ 26) →
    ∀ (st : File × List Event) (c r : Nat),
      (writeGroups rc st groups).1.cellAt c r
        = overlay (restartCell (groups.map (List.map (List.map cellValue))) c r)
            (st.1.cellAt c r) := by
  induction groups with
  | nil => intro _ st c r; rfl
  | cons vs rest ih =>
    intro hlen st c r
    have h1 : ∀ v ∈ vs, v.length ≤ 26 := hlen vs (List.mem_cons_self _ _)
    have h2 : ∀ ws ∈ rest, ∀ v ∈ ws, v.length ≤ 26 := fun ws hws => hlen ws (List.mem_cons_of_mem _ hws)
    simp only [writeGroups, restartCell, List.map_cons]
    rw [ih h2, writeSeq_cellAt rc vs h1 st 2 (by omega) c r]
    cases restartCell (rest.map (List.map (List.map cellValue))) c r <;>
      cases seqCell (vs.map (List.map cellValue)) 2 c r <;> rfl

theorem flatRows_stored {R : Type} (value : NodeScanData R → R → List GoValue)
    (data : List (NodeScanData R)) :
    (flatRows value data).map (List.map cellValue) = flatRows (storedValue value) data := by
  induction data with
  | nil => rfl
  | cons g gs ih =>
    simp only [flatRows, groupRows, List.map_append, List.map_map, ih]
    rfl

theorem groupRows_stored {R : Type} (value : NodeScanData R → R → List GoValue)
    (data : List (NodeScanData R)) :
    (data.map (groupRows value)).map (List.map (List.map cellValue))
      = data.map (groupRows (storedValue value)) := by
  induction data with
  | nil => rfl
  | cons g gs ih =>
    simp only [List.map_cons, groupRows, List.map_map, ih]
    rfl

/-! ## The workbook an exporter builds -/

theorem flatRows_width {R : Type} (value : NodeScanData R → R → List GoValue) (w : Nat)
    (hw : ∀ g rec, (value g rec).length = w) (data : List (NodeScanData R)) :
    ∀ v ∈ flatRows value data, v.length = w := by
  induction data with
  | nil => intro v hv; exact absurd hv (List.not_mem_nil v)
  | cons g gs ih =>
    intro v hv
    simp only [flatRows, groupRows, List.mem_append, List.mem_map] at hv
    rcases hv with ⟨rec, _, hrec⟩ | hv
    · rw [← hrec]
      exact hw g rec
    · exact ih v hv

theorem groupRows_width {R : Type} (value : NodeScanData R → R → List GoValue) (w : Nat)
    (hw : ∀ g rec, (value g rec).length = w) (data : List (NodeScanData R)) :
    ∀ vs ∈ data.map (groupRows value), ∀ v ∈ vs, v.length = w := by
  intro vs hvs v hv
  simp only [List.mem_map] at hvs
  obtain ⟨g, _, hg⟩ := hvs
  rw [← hg] at hv
  simp only [groupRows, List.mem_map] at hv
  obtain ⟨rec, _, hrec⟩ := hv
  rw [← hrec]
  exact hw g rec

theorem storedValue_width {R : Type} (value : NodeScanData R → R → List GoValue) (w : Nat)
    (hw : ∀ g rec, (value g rec).length = w) : ∀ g rec, (storedValue value g rec).length = w := by
  intro g rec
  unfold storedValue
  rw [List.length_map]
  exact hw g rec

theorem offsetWorkbook_cellAt (env : Env) (headers : List (String × String))
    (hk : keysInOrder headers) (hs : labelsShort headers) (rows : List (List GoValue))
    (hw : ∀ v ∈ rows, v.length ≤ 26) (c r : Nat) :
    (offsetWorkbook env headers rows).1.cellAt c r
      = overlay (seqCell (rows.map (List.map cellValue)) 2 c r) (headerCell headers c r) := by
  unfold offsetWorkbook
  rw [writeSeq_cellAt env.rowCheck rows hw _ 2 (by omega) c r, xlsxSetHeader_cellAt env headers hk hs]

theorem restartWorkbook_cellAt (env : Env) (headers : List (String × String))
    (hk : keysInOrder headers) (hs : labelsShort headers) (groups : List (List (List GoValue)))
    (hw : ∀ vs ∈ groups, ∀ v ∈ vs, v.length ≤ 26) (c r : Nat) :
    (restartWorkbook env headers groups).1.cellAt c r
      = overlay (restartCell (groups.map (List.map (List.map cellValue))) c r)
          (headerCell headers c r) := by
  unfold restartWorkbook
  rw [writeGroups_cellAt env.rowCheck groups hw _ c r, xlsxSetHeader_cellAt env headers hk hs]

/-- The cells of the workbook of an exporter with an offset: below the header,
the rows of the records as the cells keep them, one below the other from row 2
on, as far as the row limit. -/
theorem offsetWorkbook_cells {R : Type} (env : Env) (headers : List (String × String))
    (hk : keysInOrder headers) (hs : labelsShort headers)
    (value : NodeScanData R → R → List GoValue) (w : Nat)
    (hw : ∀ g rec, (value g rec).length = w) (hw26 : w ≤ 26) (data : List (NodeScanData R))
    (c r : Nat) :
    (offsetWorkbook env headers (flatRows value data)).1.cellAt c r
      = overlay (seqCell (flatRows (storedValue value) data) 2 c r) (headerCell headers c r) := by
  have hwidth : ∀ v ∈ flatRows value data, v.length ≤ 26 := by
    intro v hv
    rw [flatRows_width value w hw data v hv]
    exact hw26
  rw [offsetWorkbook_cellAt env headers hk hs (flatRows value data) hwidth, flatRows_stored]

/-- The cells of the workbook of the exporter without an offset: below the
header, the rows of each group as the cells keep them, each group from row 2
on. -/
theorem restartWorkbook_cells {R : Type} (env : Env) (headers : List (String × String))
    (hk : keysInOrder headers) (hs : labelsShort headers)
    (value : NodeScanData R → R → List GoValue) (w : Nat)
    (hw : ∀ g rec, (value g rec).length = w) (hw26 : w ≤ 26) (data : List (NodeScanData R))
    (c r : Nat) :
    (restartWorkbook env headers (data.map (groupRows value))).1.cellAt c r
      = overlay (restartCell (data.map (groupRows (storedValue value))) c r)
          (headerCell headers c r) := by
  have hwidth : ∀ vs ∈ data.map (groupRows value), ∀ v ∈ vs, v.length ≤ 26 := by
    intro vs hvs v hv
    rw [groupRows_width value w hw data vs hvs v hv]
    exact hw26
  rw [restartWorkbook_cellAt env headers hk hs _ hwidth, groupRows_stored]

theorem vulnerabilityXLSX_eq (env : Env) (params : ReportParams) (data : Info Vulnerability)
    (h : env.getVulnerabilityData params = .ok data) :
    vulnerabilityXLSX env params =
      saveAndClose env
        (offsetWorkbook env vulnerabilityHeader (flatRows vulnerabilityValue data.NodeWiseData.ScanData)).1
        params
        ([.fetch "getVulnerabilityData", .NewFile] ++
          (offsetWorkbook env vulnerabilityHeader
            (flatRows vulnerabilityValue data.NodeWiseData.ScanData)).2) := by
  unfold vulnerabilityXLSX offsetWorkbook
  rw [h]
  have key := offsetLoop_eq env.rowCheck vulnerabilityValue data.NodeWiseData.ScanData 0
  simp only [forRange] at key ⊢
  rw [key]

theorem secretXLSX_eq (env : Env) (params : ReportParams) (data : Info Secret)
    (h : env.getSecretData params = .ok data) :
    secretXLSX env params =
      saveAndClose env
        (offsetWorkbook env secretHeader (flatRows secretValue data.NodeWiseData.ScanData)).1
        params
        ([.fetch "getSecretData", .NewFile] ++
          (offsetWorkbook env secretHeader (flatRows secretValue data.NodeWiseData.ScanData)).2) := by
  unfold secretXLSX offsetWorkbook
  rw [h]
  have key := offsetLoop_eq env.rowCheck secretValue data.NodeWiseData.ScanData 0
  simp only [forRange] at key ⊢
  rw [key]

theorem malwareXLSX_eq (env : Env) (params : ReportParams) (data : Info Malware)
    (h : env.getMalwareData params = .ok data) :
    malwareXLSX env params =
      saveAndClose env
        (offsetWorkbook env malwareHeader (flatRows malwareValue data.NodeWiseData.ScanData)).1
        params
        ([.fetch "getMalwareData", .NewFile] ++
          (offsetWorkbook env malwareHeader (flatRows malwareValue data.NodeWiseData.ScanData)).2) := by
  unfold malwareXLSX offsetWorkbook
  rw [h]
  have key := offsetLoop_eq env.rowCheck malwareValue data.NodeWiseData.ScanData 0
  simp only [forRange] at key ⊢
  rw [key]

theorem complianceXLSX_eq (env : Env) (params : ReportParams) (data : Info Compliance)
    (h : env.getComplianceData params = .ok data) :
    complianceXLSX env params =
      saveAndClose env
        (offsetWorkbook env complianceHeader (flatRows complianceValue data.NodeWiseData.ScanData)).1
        params
        ([.fetch "getComplianceData", .NewFile] ++
          (offsetWorkbook env complianceHeader
            (flatRows complianceValue data.NodeWiseData.ScanData)).2) := by
  unfold complianceXLSX offsetWorkbook
  rw [h]
  have key := offsetLoop_eq env.rowCheck complianceValue data.NodeWiseData.ScanData 0
  simp only [forRange] at key ⊢
  rw [key]

theorem cloudComplianceXLSX_eq (env : Env) (params : ReportParams) (data : Info CloudCompliance)
    (h : env.getCloudComplianceData params = .ok data) :
    cloudComplianceXLSX env params =
      saveAndClose env
        (restartWorkbook env complianceHeader
          (data.NodeWiseData.ScanData.map (groupRows cloudComplianceValue))).1
        params
        ([.fetch "getCloudComplianceData", .NewFile] ++
          (restartWorkbook env complianceHeader
            (data.NodeWiseData.ScanData.map (groupRows cloudComplianceValue))).2) := by
  unfold cloudComplianceXLSX restartWorkbook
  rw [h]
  have key := restartLoop_eq env.rowCheck cloudComplianceValue data.NodeWiseData.ScanData 0
  simp only [forRange] at key ⊢
  rw [key]

/-! ## The dispatcher and fetch failures -/

/-- C1: for a report request whose scan type is none of the five scan-type
constants, `generateXLSX` returns the empty path with `ErrUnknownScanType`, and
it has done nothing: no fetch function was called, no workbook and no file was
created. -/
theorem generateXLSX_unknown_scan_type (env : Env) (params : ReportParams)
    (h1 : params.Filters.ScanType ≠ env.VULNERABILITY)
    (h2 : params.Filters.ScanType ≠ env.SECRET)
    (h3 : params.Filters.ScanType ≠ env.MALWARE)
    (h4 : params.Filters.ScanType ≠ env.COMPLIANCE)
    (h5 : params.Filters.ScanType ≠ env.CLOUD_COMPLIANCE) :
    generateXLSX env params
      = { path := "", err := some .ErrUnknownScanType, xlsx := none, events := [] } := by
  unfold generateXLSX
  simp only [h1, h2, h3, h4, h5, if_false]

theorem generateXLSX_unknown_scan_type_witness :
    generateXLSX (fixtureEnv true noData noData noData noData noData) (requestFor "unknown")
      = { path := "", err := some .ErrUnknownScanType, xlsx := none, events := [] } :=
  generateXLSX_unknown_scan_type (fixtureEnv true noData noData noData noData noData)
    (requestFor "unknown") (by decide) (by decide) (by decide) (by decide) (by decide)

theorem generateXLSX_of_err (out : Outcome) (e : GoError) (function msg : String)
    (h : FetchFailed out e function msg) :
    FetchFailed
      (match out.err with
        | some err => { out with path := "", err := some err }
        | none => { out with path := out.path, err := none }) e function msg := by
  obtain ⟨h1, h2, h3, h4⟩ := h
  rw [h2]
  exact ⟨rfl, rfl, h3, h4⟩

/-- C8 (as amended): when the fetch function of a scan type returns an error,
the exporter of that type, and `generateXLSX` on a request of that type, return
the empty path together with that fetch error itself, as the fetch function
returned it (the code does not wrap it); no workbook exists and the only
things done are the fetch call and one log line: no cell was written and no
temporary file was created. -/
theorem fetch_error_is_returned (env : Env) (params : ReportParams) (e : GoError) :
    (env.getVulnerabilityData params = .error e →
      FetchFailed (vulnerabilityXLSX env params) e "getVulnerabilityData"
          "failed to get vulnerabilities info" ∧
        (params.Filters.ScanType = env.VULNERABILITY →
          FetchFailed (generateXLSX env params) e "getVulnerabilityData"
            "failed to get vulnerabilities info")) ∧
    (env.getSecretData params = .error e →
      FetchFailed (secretXLSX env params) e "getSecretData" "failed to get secrets info" ∧
        (params.Filters.ScanType = env.SECRET →
          FetchFailed (generateXLSX env params) e "getSecretData" "failed to get secrets info")) ∧
    (env.getMalwareData params = .error e →
      FetchFailed (malwareXLSX env params) e "getMalwareData" "failed to get malwares info" ∧
        (params.Filters.ScanType = env.MALWARE →
          FetchFailed (generateXLSX env params) e "getMalwareData" "failed to get malwares info")) ∧
    (env.getComplianceData params = .error e →
      FetchFailed (complianceXLSX env params) e "getComplianceData" "failed to get compliance info" ∧
        (params.Filters.ScanType = env.COMPLIANCE →
          FetchFailed (generateXLSX env params) e "getComplianceData"
            "failed to get compliance info")) ∧
    (env.getCloudComplianceData params = .error e →
      FetchFailed (cloudComplianceXLSX env params) e "getCloudComplianceData"
          "failed to get cloud compliance info" ∧
        (params.Filters.ScanType = env.CLOUD_COMPLIANCE →
          FetchFailed (generateXLSX env params) e "getCloudComplianceData"
            "failed to get cloud compliance info")) := by
  have hnd := env.scanTypes_nodup
  simp only [List.nodup_cons, List.mem_cons, List.mem_singleton, not_or, List.not_mem_nil,
    not_false_eq_true, List.nodup_nil, and_true] at hnd
  obtain ⟨⟨v1, v2, v3, v4⟩, ⟨s1, s2, s3⟩, ⟨m1, m2⟩, c1⟩ := hnd
  refine ⟨?_, ?_, ?_, ?_, ?_⟩
  · intro h
    have hx : FetchFailed (vulnerabilityXLSX env params) e "getVulnerabilityData"
        "failed to get vulnerabilities info" := by
      unfold vulnerabilityXLSX
      rw [h]
      exact ⟨rfl, rfl, rfl, rfl⟩
    refine ⟨hx, fun ht => ?_⟩
    unfold generateXLSX
    simp only [ht, if_true]
    exact generateXLSX_of_err _ e _ _ hx
  · intro h
    have hx : FetchFailed (secretXLSX env params) e "getSecretData" "failed to get secrets info" := by
      unfold secretXLSX
      rw [h]
      exact ⟨rfl, rfl, rfl, rfl⟩
    refine ⟨hx, fun ht => ?_⟩
    unfold generateXLSX
    simp only [ht, Ne.symm v1, if_true, if_false]
    exact generateXLSX_of_err _ e _ _ hx
  · intro h
    have hx : FetchFailed (malwareXLSX env params) e "getMalwareData" "failed to get malwares info" := by
      unfold malwareXLSX
      rw [h]
      exact ⟨rfl, rfl, rfl, rfl⟩
    refine ⟨hx, fun ht => ?_⟩
    unfold generateXLSX
    simp only [ht, Ne.symm v2, Ne.symm s1, if_true, if_false]
    exact generateXLSX_of_err _ e _ _ hx
  · intro h
    have hx : FetchFailed (complianceXLSX env params) e "getComplianceData"
        "failed to get compliance info" := by
      unfold complianceXLSX
      rw [h]
      exact ⟨rfl, rfl, rfl, rfl⟩
    refine ⟨hx, fun ht => ?_⟩
    unfold generateXLSX
    simp only [ht, Ne.symm v3, Ne.symm s2, Ne.symm m1, if_true, if_false]
    exact generateXLSX_of_err _ e _ _ hx
  · intro h
    have hx : FetchFailed (cloudComplianceXLSX env params) e "getCloudComplianceData"
        "failed to get cloud compliance info" := by
      unfold cloudComplianceXLSX
      rw [h]
      exact ⟨rfl, rfl, rfl, rfl⟩
    refine ⟨hx, fun ht => ?_⟩
    unfold generateXLSX
    simp only [ht, Ne.symm v4, Ne.symm s3, Ne.symm m2, Ne.symm c1, if_true, if_false]
    exact generateXLSX_of_err _ e _ _ hx

theorem fetch_error_is_returned_witness :
    FetchFailed
        (generateXLSX (fixtureEnv true (.error (.external "unreachable")) noData noData noData noData)
          (requestFor "vulnerability"))
        (.external "unreachable") "getVulnerabilityData" "failed to get vulnerabilities info" ∧
      FetchFailed
        (generateXLSX (fixtureEnv true noData (.error (.external "unreachable")) noData noData noData)
          (requestFor "secret"))
        (.external "unreachable") "getSecretData" "failed to get secrets info" ∧
      FetchFailed
        (generateXLSX (fixtureEnv true noData noData (.error (.external "unreachable")) noData noData)
          (requestFor "malware"))
        (.external "unreachable") "getMalwareData" "failed to get malwares info" ∧
      FetchFailed
        (generateXLSX (fixtureEnv true noData noData noData (.error (.external "unreachable")) noData)
          (requestFor "compliance"))
        (.external "unreachable") "getComplianceData" "failed to get compliance info" ∧
      FetchFailed
        (generateXLSX (fixtureEnv true noData noData noData noData (.error (.external "unreachable")))
          (requestFor "cloud_compliance"))
        (.external "unreachable") "getCloudComplianceData" "failed to get cloud compliance info" :=
  ⟨((fetch_error_is_returned _ _ _).1 rfl).2 rfl,
   ((fetch_error_is_returned _ _ _).2.1 rfl).2 rfl,
   ((fetch_error_is_returned _ _ _).2.2.1 rfl).2 rfl,
   ((fetch_error_is_returned _ _ _).2.2.2.1 rfl).2 rfl,
   ((fetch_error_is_returned _ _ _).2.2.2.2 rfl).2 rfl⟩

/-- C8 (as stated) fails: when `getVulnerabilityData` fails with an error that
wraps nothing, `vulnerabilityXLSX` and `generateXLSX` return this very error,
which is not a wrapped form of it (no error built by wrapping). -/
theorem fetch_error_counterexample :
    (vulnerabilityXLSX
        (fixtureEnv true (.error (.external "unreachable")) noData noData noData noData)
        (requestFor "vulnerability")).err = some (.external "unreachable") ∧
      (generateXLSX
        (fixtureEnv true (.error (.external "unreachable")) noData noData noData noData)
        (requestFor "vulnerability")).err = some (.external "unreachable") ∧
      ¬ (∃ err,
        (vulnerabilityXLSX
          (fixtureEnv true (.error (.external "unreachable")) noData noData noData noData)
          (requestFor "vulnerability")).err = some err ∧
        err.Wraps (.external "unreachable")) ∧
      ¬ (∃ err,
        (generateXLSX
          (fixtureEnv true (.error (.external "unreachable")) noData noData noData noData)
          (requestFor "vulnerability")).err = some err ∧
        err.Wraps (.external "unreachable")) := by
  have h1 : (vulnerabilityXLSX
        (fixtureEnv true (.error (.external "unreachable")) noData noData noData noData)
        (requestFor "vulnerability")).err = some (.external "unreachable") := rfl
  have h2 : (generateXLSX
        (fixtureEnv true (.error (.external "unreachable")) noData noData noData noData)
        (requestFor "vulnerability")).err = some (.external "unreachable") := by decide
  refine ⟨h1, h2, ?_, ?_⟩
  · rintro ⟨err, he, msg, cause, hw, _⟩
    rw [h1] at he
    rw [← Option.some.inj he] at hw
    exact GoError.noConfusion hw
  · rintro ⟨err, he, msg, cause, hw, _⟩
    rw [h2] at he
    rw [← Option.some.inj he] at hw
    exact GoError.noConfusion hw

/-! ## Header and value lists -/

/-- C4: the keys of each header map are the cell names of row 1 from column A
on, one per column in the order of the schema, and after the header step on a
new workbook each of these columns holds in row 1 its label of the schema and
no other cell of the worksheet holds anything; this is so whatever the order in
which the entries of the map are visited (`env.mapRange`). -/
theorem header_row_is_schema (env : Env) (c r : Nat) :
    (keysInOrder vulnerabilityHeader ∧
      (xlsxSetHeader env NewFile "Sheet1" vulnerabilityHeader).cellAt c r
        = headerCell vulnerabilityHeader c r) ∧
    (keysInOrder secretHeader ∧
      (xlsxSetHeader env NewFile "Sheet1" secretHeader).cellAt c r = headerCell secretHeader c r) ∧
    (keysInOrder malwareHeader ∧
      (xlsxSetHeader env NewFile "Sheet1" malwareHeader).cellAt c r = headerCell malwareHeader c r) ∧
    (keysInOrder complianceHeader ∧
      (xlsxSetHeader env NewFile "Sheet1" complianceHeader).cellAt c r
        = headerCell complianceHeader c r) :=
  ⟨⟨vulnerabilityHeader_keys,
      xlsxSetHeader_cellAt env _ vulnerabilityHeader_keys vulnerabilityHeader_short c r⟩,
   ⟨secretHeader_keys, xlsxSetHeader_cellAt env _ secretHeader_keys secretHeader_short c r⟩,
   ⟨malwareHeader_keys, xlsxSetHeader_cellAt env _ malwareHeader_keys malwareHeader_short c r⟩,
   ⟨complianceHeader_keys,
      xlsxSetHeader_cellAt env _ complianceHeader_keys complianceHeader_short c r⟩⟩

theorem fillsHeaderColumns_of_length (env : Env) (headers : List (String × String))
    (hk : keysInOrder headers) (hs : labelsShort headers) (value : List GoValue)
    (hlen : value.length = headers.length)
    (h26 : headers.length ≤ 26) (row : Nat) (h2 : 2 ≤ row) (hT : row ≤ TotalRows) :
    FillsHeaderColumns env headers value row := by
  intro col
  rw [writeRow_cellAt env.rowCheck _ row value (by omega) (by omega) col row,
    xlsxSetHeader_cellAt env headers hk hs, xlsxSetHeader_cellAt env headers hk hs]
  unfold headerCell
  have hr1 : ¬ (row = 1 ∧ 1 ≤ col) := by omega
  rw [if_neg hr1]
  by_cases hin : 1 ≤ col ∧ col ≤ value.length
  · have hA : row = row ∧ row ≤ TotalRows ∧ 1 ≤ col ∧ col ≤ value.length := ⟨rfl, hT, hin.1, hin.2⟩
    have hB : (1 : Nat) = 1 ∧ 1 ≤ col := ⟨rfl, hin.1⟩
    have hl1 : col - 1 < (value.map cellValue).length := by
      rw [List.length_map]
      omega
    have hl2 : col - 1 < headers.length := by omega
    rw [if_pos hA, if_pos hB, List.getElem?_eq_getElem hl1, List.getElem?_eq_getElem hl2]
    rfl
  · have hA : ¬ (row = row ∧ row ≤ TotalRows ∧ 1 ≤ col ∧ col ≤ value.length) :=
      fun h => hin ⟨h.2.2.1, h.2.2.2⟩
    rw [if_neg hA]
    by_cases hc : 1 ≤ col
    · have hB : (1 : Nat) = 1 ∧ 1 ≤ col := ⟨rfl, hc⟩
      have hge : headers.length ≤ col - 1 := by omega
      rw [if_pos hB, List.getElem?_eq_none hge]
      rfl
    · have hB : ¬ ((1 : Nat) = 1 ∧ 1 ≤ col) := fun h => hc h.2
      rw [if_neg hB]

/-- C5: the value list built for a record has as many entries as the header of
its scan type has columns: 17 for a vulnerability, 9 for a secret, 11 for a
malware, 15 for a compliance and 15 for a cloud-compliance record (which is
written under the compliance header); so the row of a record, written from
column 1 at a row from 2 to the row limit, fills the columns that carry a
header label and no others. -/
theorem value_length_is_header_length (env : Env) :
    (∀ nodeScanData v,
      (vulnerabilityValue nodeScanData v).length = 17 ∧ vulnerabilityHeader.length = 17 ∧
        ∀ row, 2 ≤ row → row ≤ TotalRows →
          FillsHeaderColumns env vulnerabilityHeader (vulnerabilityValue nodeScanData v) row) ∧
    (∀ nodeScanData s,
      (secretValue nodeScanData s).length = 9 ∧ secretHeader.length = 9 ∧
        ∀ row, 2 ≤ row → row ≤ TotalRows →
          FillsHeaderColumns env secretHeader (secretValue nodeScanData s) row) ∧
    (∀ nodeScanData m,
      (malwareValue nodeScanData m).length = 11 ∧ malwareHeader.length = 11 ∧
        ∀ row, 2 ≤ row → row ≤ TotalRows →
          FillsHeaderColumns env malwareHeader (malwareValue nodeScanData m) row) ∧
    (∀ nodeScanData c,
      (complianceValue nodeScanData c).length = 15 ∧ complianceHeader.length = 15 ∧
        ∀ row, 2 ≤ row → row ≤ TotalRows →
          FillsHeaderColumns env complianceHeader (complianceValue nodeScanData c) row) ∧
    (∀ data c,
      (cloudComplianceValue data c).length = 15 ∧ complianceHeader.length = 15 ∧
        ∀ row, 2 ≤ row → row ≤ TotalRows →
          FillsHeaderColumns env complianceHeader (cloudComplianceValue data c) row) :=
  ⟨fun _ _ => ⟨rfl, rfl, fun row h2 hT =>
      fillsHeaderColumns_of_length env _ vulnerabilityHeader_keys vulnerabilityHeader_short _ rfl
        (by decide) row h2 hT⟩,
   fun _ _ => ⟨rfl, rfl, fun row h2 hT =>
      fillsHeaderColumns_of_length env _ secretHeader_keys secretHeader_short _ rfl
        (by decide) row h2 hT⟩,
   fun _ _ => ⟨rfl, rfl, fun row h2 hT =>
      fillsHeaderColumns_of_length env _ malwareHeader_keys malwareHeader_short _ rfl
        (by decide) row h2 hT⟩,
   fun _ _ => ⟨rfl, rfl, fun row h2 hT =>
      fillsHeaderColumns_of_length env _ complianceHeader_keys complianceHeader_short _ rfl
        (by decide) row h2 hT⟩,
   fun _ _ => ⟨rfl, rfl, fun row h2 hT =>
      fillsHeaderColumns_of_length env _ complianceHeader_keys complianceHeader_short _ rfl
        (by decide) row h2 hT⟩⟩

theorem value_length_is_header_length_witness :
    (2 ≤ 2 ∧ 2 ≤ TotalRows) ∧
      (cloudComplianceValue ⟨fixtureScanInfo "aws-1", []⟩ (fixtureCloudCompliance "control-1")).length
        = 15 ∧
      FillsHeaderColumns (fixtureEnv true noData noData noData noData noData) complianceHeader
        (cloudComplianceValue ⟨fixtureScanInfo "aws-1", []⟩ (fixtureCloudCompliance "control-1")) 2 :=
  ⟨⟨by decide, by decide⟩,
   ((value_length_is_header_length (fixtureEnv true noData noData noData noData noData)).2.2.2.2
      _ _).1,
   ((value_length_is_header_length (fixtureEnv true noData noData noData noData noData)).2.2.2.2
      _ _).2.2 2 (by decide) (by decide)⟩

/-! ## Rows of the exporters with an offset -/

theorem overlay_none_right (a : Option GoValue) : overlay a none = a := by
  cases a <;> rfl

theorem resultsBefore_zero {R : Type} (data : List (NodeScanData R)) : resultsBefore data 0 = 0 := by
  simp [resultsBefore, totalResults]

theorem resultsBefore_succ {R : Type} (g : NodeScanData R) (gs : List (NodeScanData R)) (n : Nat) :
    resultsBefore (g :: gs) (n + 1) = g.ScanResults.length + resultsBefore gs n := by
  simp [resultsBefore, totalResults]

theorem getElem?_lt {α : Type} (l : List α) (i : Nat) (a : α) (h : l[i]? = some a) : i < l.length := by
  by_contra hcon
  rw [List.getElem?_eq_none (by omega)] at h
  exact absurd h (by simp)

theorem flatRows_getElem {R : Type} (value : NodeScanData R → R → List GoValue)
    (data : List (NodeScanData R)) :
    ∀ g grp i rec, data[g]? = some grp → grp.ScanResults[i]? = some rec →
      (flatRows value data)[resultsBefore data g + i]? = some (value grp rec) := by
  induction data with
  | nil =>
    intro g grp i rec hg _
    simp at hg
  | cons x xs ih =>
    intro g grp i rec hg hi
    cases g with
    | zero =>
      simp only [List.getElem?_cons_zero, Option.some.injEq] at hg
      subst hg
      have hlt := getElem?_lt _ _ _ hi
      rw [resultsBefore_zero, Nat.zero_add]
      simp only [flatRows, groupRows]
      rw [List.getElem?_append_left (by simpa using hlt), List.getElem?_map, hi]
      rfl
    | succ n =>
      simp only [List.getElem?_cons_succ] at hg
      rw [resultsBefore_succ]
      simp only [flatRows, groupRows]
      rw [List.getElem?_append_right (by simp; omega)]
      simp only [List.length_map]
      have e : x.ScanResults.length + resultsBefore xs n + i - x.ScanResults.length
          = resultsBefore xs n + i := by omega
      rw [e]
      exact ih n grp i rec hg hi

theorem resultsBefore_index {R : Type} (data : List (NodeScanData R)) :
    ∀ n, n < totalResults data →
      ∃ g grp i rec, data[g]? = some grp ∧ grp.ScanResults[i]? = some rec ∧
        n = resultsBefore data g + i := by
  induction data with
  | nil =>
    intro n hn
    simp [totalResults] at hn
  | cons x xs ih =>
    intro n hn
    simp only [totalResults] at hn
    by_cases hx : n < x.ScanResults.length
    · refine ⟨0, x, n, x.ScanResults[n], List.getElem?_cons_zero, List.getElem?_eq_getElem hx, ?_⟩
      rw [resultsBefore_zero, Nat.zero_add]
    · obtain ⟨g, grp, i, rec, h1, h2, h3⟩ := ih (n - x.ScanResults.length) (by omega)
      refine ⟨g + 1, grp, i, rec, ?_, h2, ?_⟩
      · simpa using h1
      · rw [resultsBefore_succ]
        omega

theorem resultsBefore_lt {R : Type} (data : List (NodeScanData R)) :
    ∀ g grp g2, data[g]? = some grp → g < g2 →
      resultsBefore data g + grp.ScanResults.length ≤ resultsBefore data g2 := by
  induction data with
  | nil =>
    intro g grp g2 hg _
    simp at hg
  | cons x xs ih =>
    intro g grp g2 hg hlt
    cases g2 with
    | zero => omega
    | succ m =>
      rw [resultsBefore_succ]
      cases g with
      | zero =>
        simp only [List.getElem?_cons_zero, Option.some.injEq] at hg
        subst hg
        rw [resultsBefore_zero]
        omega
      | succ n =>
        simp only [List.getElem?_cons_succ] at hg
        rw [resultsBefore_succ]
        have := ih n grp m hg (by omega)
        omega

theorem offsetWorkbook_record_row {R : Type} (env : Env) (headers : List (String × String))
    (hk : keysInOrder headers) (hs : labelsShort headers)
    (value : NodeScanData R → R → List GoValue) (w : Nat)
    (hw : ∀ g rec, (value g rec).length = w) (hw26 : w ≤ 26) (data : List (NodeScanData R))
    (g : Nat) (grp : NodeScanData R) (i : Nat) (rec : R) (hg : data[g]? = some grp)
    (hi : grp.ScanResults[i]? = some rec) (hrow : 2 + resultsBefore data g + i ≤ TotalRows)
    (c : Nat) :
    (offsetWorkbook env headers (flatRows value data)).1.cellAt c (2 + resultsBefore data g + i)
      = if 1 ≤ c then (storedValue value grp rec)[c - 1]? else none := by
  have hflat := flatRows_getElem (storedValue value) data g grp i rec hg hi
  rw [offsetWorkbook_cells env headers hk hs value w hw hw26 data]
  have hh : headerCell headers c (2 + resultsBefore data g + i) = none := by
    unfold headerCell
    rw [if_neg (by omega)]
  rw [hh, overlay_none_right]
  unfold seqCell
  have e : 2 + resultsBefore data g + i - 2 = resultsBefore data g + i := by omega
  by_cases hc : 1 ≤ c
  · rw [if_pos ⟨by omega, hrow, hc⟩, if_pos hc, e, hflat]
    rfl
  · rw [if_neg (fun h => hc h.2.2), if_neg hc]

/-- A row past the row limit holds nothing. -/
theorem offsetWorkbook_past {R : Type} (env : Env) (headers : List (String × String))
    (hk : keysInOrder headers) (hs : labelsShort headers)
    (value : NodeScanData R → R → List GoValue) (w : Nat)
    (hw : ∀ g rec, (value g rec).length = w) (hw26 : w ≤ 26) (data : List (NodeScanData R))
    (c r : Nat) (hr : TotalRows < r) :
    (offsetWorkbook env headers (flatRows value data)).1.cellAt c r = none := by
  rw [offsetWorkbook_cells env headers hk hs value w hw hw26 data]
  have hT : 1 < r := by
    unfold TotalRows at hr
    omega
  have hh : headerCell headers c r = none := by
    unfold headerCell
    rw [if_neg (by omega)]
  rw [hh, overlay_none_right]
  unfold seqCell
  rw [if_neg (by omega)]

theorem rowsContiguous_offsetWorkbook {R : Type} (env : Env) (headers : List (String × String))
    (hk : keysInOrder headers) (hs : labelsShort headers)
    (value : NodeScanData R → R → List GoValue) (w : Nat)
    (hw : ∀ g rec, (value g rec).length = w) (hw26 : w ≤ 26) (data : List (NodeScanData R))
    (hT : totalResults data + 1 ≤ TotalRows) :
    RowsContiguous (storedValue value) data (offsetWorkbook env headers (flatRows value data)).1 := by
  have hcell := offsetWorkbook_cells env headers hk hs value w hw hw26 data
  refine ⟨?_, ?_, ?_, ?_⟩
  · intro g grp i rec hg hi c
    have hflat := flatRows_getElem value data g grp i rec hg hi
    have hlt := getElem?_lt _ _ _ hflat
    rw [flatRows_length] at hlt
    exact offsetWorkbook_record_row env headers hk hs value w hw hw26 data g grp i rec hg hi
      (by omega) c
  · intro r h2 hr
    obtain ⟨g, grp, i, rec, h1, h2', h3⟩ := resultsBefore_index data (r - 2) (by omega)
    exact ⟨g, grp, i, rec, h1, h2', by omega⟩
  · intro g grp i rec g2 grp2 i2 rec2 hg hi hg2 hi2 heq
    have hl1 := getElem?_lt _ _ _ hi
    have hl2 := getElem?_lt _ _ _ hi2
    rcases Nat.lt_trichotomy g g2 with hlt | heqg | hgt
    · have := resultsBefore_lt data g grp g2 hg hlt
      omega
    · subst heqg
      exact ⟨rfl, by omega⟩
    · have := resultsBefore_lt data g2 grp2 g hg2 hgt
      omega
  · intro c r hr
    rw [hcell]
    have hh : headerCell headers c r = none := by
      unfold headerCell
      rw [if_neg (by omega)]
    rw [hh, overlay_none_right]
    unfold seqCell
    by_cases hin : 2 ≤ r ∧ r ≤ TotalRows ∧ 1 ≤ c
    · have hge : (flatRows (storedValue value) data).length ≤ r - 2 := by
        rw [flatRows_length]
        omega
      rw [if_pos hin, List.getElem?_eq_none hge]
      rfl
    · rw [if_neg hin]

/-- C2: in the vulnerability, secret, malware and compliance exporters, when
the rows of all fetched records are within the worksheet's row limit, the
record at local index `i` of group `g` is written from column 1 on at row
`2 + (number of records of the groups before g) + i` (the cells of the row
hold the values of the record as cells keep them, a string longer than 32767
characters cut to that length); every row from 2 to the
last one written is the row of some record, no two records share a row, and
the rows below hold nothing: the groups occupy contiguous row ranges in fetch
order from row 2 on. -/
theorem offset_rows_contiguous (env : Env) (params : ReportParams) :
    (∀ data, env.getVulnerabilityData params = .ok data →
      totalResults data.NodeWiseData.ScanData + 1 ≤ TotalRows →
      ∃ f, (vulnerabilityXLSX env params).xlsx = some f ∧
        RowsContiguous (storedValue vulnerabilityValue) data.NodeWiseData.ScanData f) ∧
    (∀ data, env.getSecretData params = .ok data →
      totalResults data.NodeWiseData.ScanData + 1 ≤ TotalRows →
      ∃ f, (secretXLSX env params).xlsx = some f ∧
        RowsContiguous (storedValue secretValue) data.NodeWiseData.ScanData f) ∧
    (∀ data, env.getMalwareData params = .ok data →
      totalResults data.NodeWiseData.ScanData + 1 ≤ TotalRows →
      ∃ f, (malwareXLSX env params).xlsx = some f ∧
        RowsContiguous (storedValue malwareValue) data.NodeWiseData.ScanData f) ∧
    (∀ data, env.getComplianceData params = .ok data →
      totalResults data.NodeWiseData.ScanData + 1 ≤ TotalRows →
      ∃ f, (complianceXLSX env params).xlsx = some f ∧
        RowsContiguous (storedValue complianceValue) data.NodeWiseData.ScanData f) := by
  refine ⟨?_, ?_, ?_, ?_⟩
  · intro data h hT
    rw [vulnerabilityXLSX_eq env params data h]
    exact ⟨_, rfl, rowsContiguous_offsetWorkbook env _ vulnerabilityHeader_keys
      vulnerabilityHeader_short vulnerabilityValue 17
      (fun _ _ => rfl) (by decide) _ hT⟩
  · intro data h hT
    rw [secretXLSX_eq env params data h]
    exact ⟨_, rfl, rowsContiguous_offsetWorkbook env _ secretHeader_keys
      secretHeader_short secretValue 9
      (fun _ _ => rfl) (by decide) _ hT⟩
  · intro data h hT
    rw [malwareXLSX_eq env params data h]
    exact ⟨_, rfl, rowsContiguous_offsetWorkbook env _ malwareHeader_keys
      malwareHeader_short malwareValue 11
      (fun _ _ => rfl) (by decide) _ hT⟩
  · intro data h hT
    rw [complianceXLSX_eq env params data h]
    exact ⟨_, rfl, rowsContiguous_offsetWorkbook env _ complianceHeader_keys
      complianceHeader_short complianceValue 15
      (fun _ _ => rfl) (by decide) _ hT⟩

theorem offset_rows_contiguous_witness :
    totalResults fixtureGroups + 1 ≤ TotalRows ∧
      resultsBefore fixtureGroups 0 = 0 ∧ resultsBefore fixtureGroups 1 = 2 ∧
      resultsBefore fixtureGroups 2 = 5 ∧
      ∃ f,
        (vulnerabilityXLSX (fixtureEnv true (.ok ⟨⟨fixtureGroups⟩⟩) noData noData noData noData)
          (requestFor "vulnerability")).xlsx = some f ∧
        RowsContiguous (storedValue vulnerabilityValue) fixtureGroups f :=
  ⟨by decide, by decide, by decide, by decide,
   (offset_rows_contiguous (fixtureEnv true (.ok ⟨⟨fixtureGroups⟩⟩) noData noData noData noData)
      (requestFor "vulnerability")).1 ⟨⟨fixtureGroups⟩⟩ rfl (by decide)⟩

/-! ## The columns of a vulnerability row -/

theorem cve_id_column : ∀ n, n < 17 →
    (vulnerabilityHeader[n]?).map (fun e => GoValue.str e.2) = some (.str "cve_id") → n = 9 := by
  decide

theorem cve_severity_column : ∀ n, n < 17 →
    (vulnerabilityHeader[n]?).map (fun e => GoValue.str e.2) = some (.str "cve_severity") → n = 11 := by
  decide

theorem headerCell_label_column (label : String) (col : Nat)
    (hcol : ∀ n, n < 17 →
      (vulnerabilityHeader[n]?).map (fun e => GoValue.str e.2) = some (.str label) → n = col)
    (c : Nat) (h : headerCell vulnerabilityHeader c 1 = some (.str label)) : c = col + 1 := by
  unfold headerCell at h
  by_cases hc : 1 ≤ c
  · rw [if_pos ⟨rfl, hc⟩] at h
    by_cases hlt : c - 1 < 17
    · have := hcol (c - 1) hlt h
      omega
    · have hge : vulnerabilityHeader.length ≤ c - 1 := by
        have : vulnerabilityHeader.length = 17 := rfl
        omega
      rw [List.getElem?_eq_none hge] at h
      exact absurd h (by simp)
  · rw [if_neg (fun hh => hc hh.2)] at h
    exact absurd h (by simp)

theorem longString_long : TotalCellChars < longString.length := by
  unfold longString
  rw [String.length_mk, List.length_replicate]
  decide

theorem vulnerabilityValue_cve_id (grp : NodeScanData Vulnerability) (v : Vulnerability) :
    (storedValue vulnerabilityValue grp v)[10 - 1]? = some (cellValue v.Cve_id) := rfl

theorem vulnerabilityValue_cve_severity (grp : NodeScanData Vulnerability) (v : Vulnerability) :
    (storedValue vulnerabilityValue grp v)[12 - 1]? = some (cellValue v.Cve_severity) := rfl

/-- The cells of the workbook of the vulnerability exporter: row 1 is the
header, the row of a record within the row limit holds the record's values as
cells keep them, and the rows past the limit hold nothing. -/
theorem vulnerabilityXLSX_cells (env : Env) (params : ReportParams) (data : Info Vulnerability)
    (h : env.getVulnerabilityData params = .ok data) :
    ∃ f, (vulnerabilityXLSX env params).xlsx = some f ∧
      (∀ c, f.cellAt c 1 = headerCell vulnerabilityHeader c 1) ∧
      (∀ g grp i v, data.NodeWiseData.ScanData[g]? = some grp → grp.ScanResults[i]? = some v →
        2 + resultsBefore data.NodeWiseData.ScanData g + i ≤ TotalRows →
        ∀ c, f.cellAt c (2 + resultsBefore data.NodeWiseData.ScanData g + i)
          = if 1 ≤ c then (storedValue vulnerabilityValue grp v)[c - 1]? else none) ∧
      (∀ c r, TotalRows < r → f.cellAt c r = none) := by
  rw [vulnerabilityXLSX_eq env params data h]
  refine ⟨_, rfl, ?_, ?_, ?_⟩
  · intro c
    rw [offsetWorkbook_cells env _ vulnerabilityHeader_keys vulnerabilityHeader_short
      vulnerabilityValue 17 (fun _ _ => rfl) (by decide), seqCell_below _ 2 c 1 (by omega)]
    rfl
  · intro g grp i v hg hi hlim c
    exact offsetWorkbook_record_row env _ vulnerabilityHeader_keys vulnerabilityHeader_short
      vulnerabilityValue 17 (fun _ _ => rfl) (by decide) _ g grp i v hg hi hlim c
  · intro c r hr
    exact offsetWorkbook_past env _ vulnerabilityHeader_keys vulnerabilityHeader_short
      vulnerabilityValue 17 (fun _ _ => rfl) (by decide) _ c r hr

/-- C6 (as amended): for every vulnerability record whose row is within the
worksheet's row limit, the row written for it carries, in the column whose
header label is `cve_id`, the record's CVE id and, in the column whose header
label is `cve_severity`, the record's severity, each as a cell keeps it: whole
when it has at most 32767 characters, cut to its first 32767 characters
otherwise; the header has these two columns. -/
theorem vulnerability_row_carries_cve (env : Env) (params : ReportParams) (data : Info Vulnerability)
    (h : env.getVulnerabilityData params = .ok data) :
    (∃ f, (vulnerabilityXLSX env params).xlsx = some f ∧ CveColumns data.NodeWiseData.ScanData f) ∧
    (∀ s : String, s.length ≤ 32767 → cellValue (.str s) = .str s) := by
  refine ⟨?_, fun s hs => cellValue_short s hs⟩
  obtain ⟨f, hf, hrow1, hrows, _⟩ := vulnerabilityXLSX_cells env params data h
  refine ⟨f, hf, ⟨10, ?_⟩, ⟨12, ?_⟩, ?_⟩
  · rw [hrow1]
    decide
  · rw [hrow1]
    decide
  · intro g grp i v hg hi hlim c
    constructor
    · intro hc
      rw [hrow1] at hc
      have e := headerCell_label_column "cve_id" 9 cve_id_column c hc
      subst e
      rw [hrows g grp i v hg hi hlim]
      exact vulnerabilityValue_cve_id grp v
    · intro hc
      rw [hrow1] at hc
      have e := headerCell_label_column "cve_severity" 11 cve_severity_column c hc
      subst e
      rw [hrows g grp i v hg hi hlim]
      exact vulnerabilityValue_cve_severity grp v

theorem vulnerability_row_carries_cve_witness :
    (∃ f,
      (vulnerabilityXLSX
        (fixtureEnv true
          (.ok ⟨⟨[⟨fixtureScanInfo "n1", [fixtureVulnerability "CVE-2023-0001" "critical"]⟩]⟩⟩)
          noData noData noData noData)
        (requestFor "vulnerability")).xlsx = some f ∧
      CveColumns [⟨fixtureScanInfo "n1", [fixtureVulnerability "CVE-2023-0001" "critical"]⟩] f) ∧
    cellValue (.str "CVE-2023-0001") = .str "CVE-2023-0001" ∧
    cellValue (.str "critical") = .str "critical" :=
  ⟨(vulnerability_row_carries_cve
      (fixtureEnv true
        (.ok ⟨⟨[⟨fixtureScanInfo "n1", [fixtureVulnerability "CVE-2023-0001" "critical"]⟩]⟩⟩)
        noData noData noData noData)
      (requestFor "vulnerability")
      ⟨⟨[⟨fixtureScanInfo "n1", [fixtureVulnerability "CVE-2023-0001" "critical"]⟩]⟩⟩ rfl).1,
   (vulnerability_row_carries_cve
      (fixtureEnv true
        (.ok ⟨⟨[⟨fixtureScanInfo "n1", [fixtureVulnerability "CVE-2023-0001" "critical"]⟩]⟩⟩)
        noData noData noData noData)
      (requestFor "vulnerability")
      ⟨⟨[⟨fixtureScanInfo "n1", [fixtureVulnerability "CVE-2023-0001" "critical"]⟩]⟩⟩ rfl).2
      "CVE-2023-0001" (by decide),
   (vulnerability_row_carries_cve
      (fixtureEnv true
        (.ok ⟨⟨[⟨fixtureScanInfo "n1", [fixtureVulnerability "CVE-2023-0001" "critical"]⟩]⟩⟩)
        noData noData noData noData)
      (requestFor "vulnerability")
      ⟨⟨[⟨fixtureScanInfo "n1", [fixtureVulnerability "CVE-2023-0001" "critical"]⟩]⟩⟩ rfl).2
      "critical" (by decide)⟩

/-- C6 (as stated) fails in two ways: a record whose CVE id has 40000
characters has only the first 32767 of them in the `cve_id` column of its row;
and, of 1048576 records, the last one (index 1048575) has no row, its row
1048577 being past the row limit. -/
theorem vulnerability_row_counterexample :
    (∃ f,
      (vulnerabilityXLSX (fixtureEnv true (.ok ⟨⟨fixtureLongCve⟩⟩) noData noData noData noData)
        (requestFor "vulnerability")).xlsx = some f ∧
      ¬ CveColumnsOfEveryRecord fixtureLongCve f) ∧
    (∃ f,
      (vulnerabilityXLSX
        (fixtureEnv true (.ok ⟨⟨fixtureManyVulnerabilities⟩⟩) noData noData noData noData)
        (requestFor "vulnerability")).xlsx = some f ∧
      ¬ CveColumnsOfEveryRecord fixtureManyVulnerabilities f) := by
  constructor
  · obtain ⟨f, hf, hrow1, hrows, _⟩ := vulnerabilityXLSX_cells
      (fixtureEnv true (.ok ⟨⟨fixtureLongCve⟩⟩) noData noData noData noData)
      (requestFor "vulnerability") ⟨⟨fixtureLongCve⟩⟩ rfl
    refine ⟨f, hf, fun hall => ?_⟩
    have hid : f.cellAt 10 1 = some (.str "cve_id") := by
      rw [hrow1]
      decide
    have hlim : 2 + resultsBefore fixtureLongCve 0 + 0 ≤ TotalRows := by
      rw [resultsBefore_zero]
      decide
    have hclaim := (hall 0 _ 0 _ rfl rfl 10).1 hid
    have hcode := hrows 0 _ 0 _ rfl rfl hlim 10
    rw [if_pos (by decide), vulnerabilityValue_cve_id] at hcode
    rw [hcode] at hclaim
    exact cellValue_long longString longString_long (Option.some.inj hclaim)
  · obtain ⟨f, hf, hrow1, _, hpast⟩ := vulnerabilityXLSX_cells
      (fixtureEnv true (.ok ⟨⟨fixtureManyVulnerabilities⟩⟩) noData noData noData noData)
      (requestFor "vulnerability") ⟨⟨fixtureManyVulnerabilities⟩⟩ rfl
    refine ⟨f, hf, fun hall => ?_⟩
    have hid : f.cellAt 10 1 = some (.str "cve_id") := by
      rw [hrow1]
      decide
    have hget : (List.replicate 1048576 (fixtureVulnerability "CVE-2023-0001" "critical"))[1048575]?
        = some (fixtureVulnerability "CVE-2023-0001" "critical") :=
      List.getElem?_replicate_of_lt (by decide)
    have hclaim := (hall 0
      ⟨fixtureScanInfo "n1", List.replicate 1048576 (fixtureVulnerability "CVE-2023-0001" "critical")⟩
      1048575 (fixtureVulnerability "CVE-2023-0001" "critical") rfl hget 10).1 hid
    have hrow : TotalRows < 2 + resultsBefore fixtureManyVulnerabilities 0 + 1048575 := by
      rw [resultsBefore_zero]
      decide
    rw [hpast 10 _ hrow] at hclaim
    exact absurd hclaim (by simp)

/-! ## An export without records -/

theorem isSome_map_eq {α β : Type} (g : α → β) (o : Option α) : (o.map g).isSome = o.isSome := by
  cases o <;> rfl

theorem cellAt_isSome_of_mem (f : File) (e : Nat × Nat × GoValue) (he : e ∈ f.Sheet1) :
    (f.cellAt e.1 e.2.1).isSome = true := by
  unfold File.cellAt
  rw [isSome_map_eq, List.find?_isSome]
  exact ⟨e, he, by simp⟩

theorem mem_dataRows (f : File) (r : Nat) :
    r ∈ f.dataRows ↔ 2 ≤ r ∧ ∃ c, (f.cellAt c r).isSome = true := by
  unfold File.dataRows
  rw [List.mem_dedup, List.mem_filter, List.mem_map]
  constructor
  · rintro ⟨⟨e, he, hr⟩, h2⟩
    refine ⟨by simpa using h2, e.1, ?_⟩
    rw [← hr]
    exact cellAt_isSome_of_mem f e he
  · rintro ⟨h2, c, hc⟩
    unfold File.cellAt at hc
    rw [isSome_map_eq, List.find?_isSome] at hc
    obtain ⟨e, he, hp⟩ := hc
    simp only [Bool.and_eq_true, beq_iff_eq] at hp
    exact ⟨⟨e, he, hp.2⟩, by simpa using h2⟩

theorem dataRows_eq_nil (f : File) (h : ∀ c r, 2 ≤ r → f.cellAt c r = none) : f.dataRows = [] := by
  rw [List.eq_nil_iff_forall_not_mem]
  intro r hr
  obtain ⟨h2, c, hc⟩ := (mem_dataRows f r).mp hr
  rw [h c r h2] at hc
  exact absurd hc (by simp)

theorem saveAs_mem_events (env : Env) (f : File) (params : ReportParams) (before : List Event)
    (temp : String) (h : env.CreateTemp ("report-*-" ++ env.reportFileName params) = .ok temp) :
    Event.SaveAs temp f ∈ (saveAndClose env f params before).events := by
  unfold saveAndClose xlsxSave
  rw [h]
  simp only []
  cases hs : env.SaveAs f temp <;> simp

theorem headerOnly_saveAndClose (env : Env) (params : ReportParams)
    (headers : List (String × String)) (hk : keysInOrder headers) (hs : labelsShort headers)
    (before : List Event) :
    HeaderOnly env params headers
      (saveAndClose env (xlsxSetHeader env NewFile "Sheet1" headers) params before) := by
  refine ⟨_, rfl, xlsxSetHeader_cellAt env headers hk hs, ?_, ?_⟩
  · apply dataRows_eq_nil
    intro c r h2
    rw [xlsxSetHeader_cellAt env headers hk hs]
    unfold headerCell
    rw [if_neg (by omega)]
  · intro temp ht
    exact saveAs_mem_events env _ params before temp ht

theorem flatRows_eq_nil {R : Type} (value : NodeScanData R → R → List GoValue)
    (data : List (NodeScanData R)) (h : totalResults data = 0) : flatRows value data = [] := by
  apply List.eq_nil_of_length_eq_zero
  rw [flatRows_length, h]

theorem writeGroups_empty {R : Type} (rc : Bool) (value : NodeScanData R → R → List GoValue)
    (data : List (NodeScanData R)) :
    totalResults data = 0 → ∀ st, writeGroups rc st (data.map (groupRows value)) = st := by
  induction data with
  | nil => intro _ st; rfl
  | cons g gs ih =>
    intro h st
    simp only [totalResults] at h
    have hg : g.ScanResults = [] := List.eq_nil_of_length_eq_zero (by omega)
    simp only [List.map_cons, writeGroups, groupRows, hg, List.map_nil, writeSeq]
    exact ih (by omega) st

/-- C9: in each of the five exporters, when the fetched data has no node group,
or only node groups without records, the workbook that is built and saved holds
the header row of the scan type's schema (the compliance schema for
cloud-compliance) and no data row. -/
theorem empty_data_header_only (env : Env) (params : ReportParams) :
    (∀ data, env.getVulnerabilityData params = .ok data →
      totalResults data.NodeWiseData.ScanData = 0 →
      HeaderOnly env params vulnerabilityHeader (vulnerabilityXLSX env params)) ∧
    (∀ data, env.getSecretData params = .ok data →
      totalResults data.NodeWiseData.ScanData = 0 →
      HeaderOnly env params secretHeader (secretXLSX env params)) ∧
    (∀ data, env.getMalwareData params = .ok data →
      totalResults data.NodeWiseData.ScanData = 0 →
      HeaderOnly env params malwareHeader (malwareXLSX env params)) ∧
    (∀ data, env.getComplianceData params = .ok data →
      totalResults data.NodeWiseData.ScanData = 0 →
      HeaderOnly env params complianceHeader (complianceXLSX env params)) ∧
    (∀ data, env.getCloudComplianceData params = .ok data →
      totalResults data.NodeWiseData.ScanData = 0 →
      HeaderOnly env params complianceHeader (cloudComplianceXLSX env params)) := by
  refine ⟨?_, ?_, ?_, ?_, ?_⟩
  · intro data h h0
    rw [vulnerabilityXLSX_eq env params data h, flatRows_eq_nil _ _ h0]
    exact headerOnly_saveAndClose env params _ vulnerabilityHeader_keys vulnerabilityHeader_short _
  · intro data h h0
    rw [secretXLSX_eq env params data h, flatRows_eq_nil _ _ h0]
    exact headerOnly_saveAndClose env params _ secretHeader_keys secretHeader_short _
  · intro data h h0
    rw [malwareXLSX_eq env params data h, flatRows_eq_nil _ _ h0]
    exact headerOnly_saveAndClose env params _ malwareHeader_keys malwareHeader_short _
  · intro data h h0
    rw [complianceXLSX_eq env params data h, flatRows_eq_nil _ _ h0]
    exact headerOnly_saveAndClose env params _ complianceHeader_keys complianceHeader_short _
  · intro data h h0
    rw [cloudComplianceXLSX_eq env params data h]
    unfold restartWorkbook
    rw [writeGroups_empty env.rowCheck cloudComplianceValue _ h0]
    exact headerOnly_saveAndClose env params _ complianceHeader_keys complianceHeader_short _

theorem empty_data_header_only_witness :
    HeaderOnly (fixtureEnv true noData noData noData noData noData) (requestFor "malware")
        malwareHeader
        (malwareXLSX (fixtureEnv true noData noData noData noData noData) (requestFor "malware")) ∧
      HeaderOnly
        (fixtureEnv true noData noData noData noData
          (.ok ⟨⟨[⟨fixtureScanInfo "aws-1", []⟩, ⟨fixtureScanInfo "aws-2", []⟩]⟩⟩))
        (requestFor "cloud_compliance") complianceHeader
        (cloudComplianceXLSX
          (fixtureEnv true noData noData noData noData
            (.ok ⟨⟨[⟨fixtureScanInfo "aws-1", []⟩, ⟨fixtureScanInfo "aws-2", []⟩]⟩⟩))
          (requestFor "cloud_compliance")) :=
  ⟨(empty_data_header_only _ _).2.2.1 ⟨⟨[]⟩⟩ rfl rfl,
   (empty_data_header_only _ _).2.2.2.2 _ rfl rfl⟩

/-! ## Records whose row cannot be written -/

theorem exportCompletes_saveAndClose (env : Env) (params : ReportParams) (f : File)
    (before : List Event) : ExportCompletes env params (saveAndClose env f params before) f := by
  refine ⟨rfl, rfl, rfl, ?_⟩
  intro temp ht hs
  refine ⟨?_, ?_, saveAs_mem_events env f params before temp ht⟩
  · show (xlsxSave env f params).1.1 = temp
    unfold xlsxSave
    rw [ht]
    simp only []
    rw [hs]
  · show (xlsxSave env f params).1.2 = none
    unfold xlsxSave
    rw [ht]
    simp only []
    rw [hs]

/-- C7: in every exporter, a record for which the cell name cannot be computed
changes no cell of the workbook (the loop body only adds a log line); the loop
goes on, so that the workbook built holds below the header the row of every
record whose row is within the row limit (its values as cells keep them, a
string longer than 32767 characters cut to that length), and nothing in the
other rows; and
the exporter ends by saving this workbook: it returns what `xlsxSave` returns,
the path and no error when the file is created and saved. -/
theorem coordinate_failure_skips_row (env : Env) (params : ReportParams) :
    (∀ st row value err, CoordinatesToCellName env.rowCheck 1 row = .error err →
      writeRow env.rowCheck st row value
        = (st.1, st.2 ++ [.logError "error generating cell name" err])) ∧
    (∀ data, env.getVulnerabilityData params = .ok data →
      ∃ f, ExportCompletes env params (vulnerabilityXLSX env params) f ∧
        ∀ c r, f.cellAt c r
          = overlay (seqCell (flatRows (storedValue vulnerabilityValue) data.NodeWiseData.ScanData) 2 c r)
              (headerCell vulnerabilityHeader c r)) ∧
    (∀ data, env.getSecretData params = .ok data →
      ∃ f, ExportCompletes env params (secretXLSX env params) f ∧
        ∀ c r, f.cellAt c r
          = overlay (seqCell (flatRows (storedValue secretValue) data.NodeWiseData.ScanData) 2 c r)
              (headerCell secretHeader c r)) ∧
    (∀ data, env.getMalwareData params = .ok data →
      ∃ f, ExportCompletes env params (malwareXLSX env params) f ∧
        ∀ c r, f.cellAt c r
          = overlay (seqCell (flatRows (storedValue malwareValue) data.NodeWiseData.ScanData) 2 c r)
              (headerCell malwareHeader c r)) ∧
    (∀ data, env.getComplianceData params = .ok data →
      ∃ f, ExportCompletes env params (complianceXLSX env params) f ∧
        ∀ c r, f.cellAt c r
          = overlay (seqCell (flatRows (storedValue complianceValue) data.NodeWiseData.ScanData) 2 c r)
              (headerCell complianceHeader c r)) ∧
    (∀ data, env.getCloudComplianceData params = .ok data →
      ∃ f, ExportCompletes env params (cloudComplianceXLSX env params) f ∧
        ∀ c r, f.cellAt c r
          = overlay
              (restartCell
                (data.NodeWiseData.ScanData.map (groupRows (storedValue cloudComplianceValue))) c r)
              (headerCell complianceHeader c r)) := by
  refine ⟨fun st row value err h => writeRow_error env.rowCheck st row value err h, ?_, ?_, ?_, ?_, ?_⟩
  · intro data h
    rw [vulnerabilityXLSX_eq env params data h]
    refine ⟨_, exportCompletes_saveAndClose env params _ _, ?_⟩
    exact offsetWorkbook_cells env _ vulnerabilityHeader_keys vulnerabilityHeader_short vulnerabilityValue 17
      (fun _ _ => rfl) (by decide) _
  · intro data h
    rw [secretXLSX_eq env params data h]
    refine ⟨_, exportCompletes_saveAndClose env params _ _, ?_⟩
    exact offsetWorkbook_cells env _ secretHeader_keys secretHeader_short secretValue 9
      (fun _ _ => rfl) (by decide) _
  · intro data h
    rw [malwareXLSX_eq env params data h]
    refine ⟨_, exportCompletes_saveAndClose env params _ _, ?_⟩
    exact offsetWorkbook_cells env _ malwareHeader_keys malwareHeader_short malwareValue 11
      (fun _ _ => rfl) (by decide) _
  · intro data h
    rw [complianceXLSX_eq env params data h]
    refine ⟨_, exportCompletes_saveAndClose env params _ _, ?_⟩
    exact offsetWorkbook_cells env _ complianceHeader_keys complianceHeader_short complianceValue 15
      (fun _ _ => rfl) (by decide) _
  · intro data h
    rw [cloudComplianceXLSX_eq env params data h]
    refine ⟨_, exportCompletes_saveAndClose env params _ _, ?_⟩
    exact restartWorkbook_cells env _ complianceHeader_keys complianceHeader_short
      cloudComplianceValue 15 (fun _ _ => rfl) (by decide) _

theorem coordinate_failure_skips_row_witness :
    CoordinatesToCellName true 1 (0 + 1048575 + 2) = .error .ErrMaxRows ∧
      writeRow true (NewFile, []) (0 + 1048575 + 2)
          (vulnerabilityValue ⟨fixtureScanInfo "n1", []⟩ (fixtureVulnerability "CVE-2023-0001" "critical"))
        = (NewFile, [.logError "error generating cell name" .ErrMaxRows]) ∧
      ∃ f,
        ExportCompletes
          (fixtureEnv true (.ok ⟨⟨fixtureManyVulnerabilities⟩⟩) noData noData noData noData)
          (requestFor "vulnerability")
          (vulnerabilityXLSX
            (fixtureEnv true (.ok ⟨⟨fixtureManyVulnerabilities⟩⟩) noData noData noData noData)
            (requestFor "vulnerability")) f ∧
        ∀ c r, f.cellAt c r
          = overlay
              (seqCell (flatRows (storedValue vulnerabilityValue) fixtureManyVulnerabilities) 2 c r)
              (headerCell vulnerabilityHeader c r) :=
  ⟨by decide,
   (coordinate_failure_skips_row
      (fixtureEnv true (.ok ⟨⟨fixtureManyVulnerabilities⟩⟩) noData noData noData noData)
      (requestFor "vulnerability")).1 (NewFile, []) (0 + 1048575 + 2) _ .ErrMaxRows (by decide),
   (coordinate_failure_skips_row
      (fixtureEnv true (.ok ⟨⟨fixtureManyVulnerabilities⟩⟩) noData noData noData noData)
      (requestFor "vulnerability")).2.1 ⟨⟨fixtureManyVulnerabilities⟩⟩ rfl⟩

/-! ## Rows of the cloud-compliance exporter -/

theorem lastGroupWith_cons {R : Type} (g : NodeScanData R) (gs : List (NodeScanData R)) (i : Nat) :
    lastGroupWith (g :: gs) i =
      match lastGroupWith gs i with
      | some x => some x
      | none => if i < g.ScanResults.length then some g else none := by
  unfold lastGroupWith
  rw [List.reverse_cons, List.find?_append]
  cases hf : List.find? (fun g => decide (i < g.ScanResults.length)) gs.reverse with
  | some x => rfl
  | none =>
    by_cases hi : i < g.ScanResults.length
    · simp [List.find?, hi]
    · simp [List.find?, hi]

theorem lastGroupWith_lt {R : Type} (data : List (NodeScanData R)) (i : Nat) (g : NodeScanData R)
    (h : lastGroupWith data i = some g) : i < g.ScanResults.length := by
  unfold lastGroupWith at h
  have := List.find?_some h
  simpa using this

theorem seqCell_groupRows {R : Type} (value : NodeScanData R → R → List GoValue)
    (g : NodeScanData R) (i k : Nat) (hi : i + 2 ≤ TotalRows) :
    seqCell (groupRows value g) 2 (k + 1) (i + 2)
      = (g.ScanResults[i]?).bind (fun rec => (value g rec)[k]?) := by
  unfold seqCell groupRows
  rw [if_pos ⟨by omega, hi, by omega⟩]
  have e1 : i + 2 - 2 = i := by omega
  have e2 : k + 1 - 1 = k := by omega
  rw [e1, e2, List.getElem?_map]
  cases g.ScanResults[i]? <;> rfl

theorem restartCell_lastGroup {R : Type} (value : NodeScanData R → R → List GoValue) (w : Nat)
    (hw : ∀ g rec, (value g rec).length = w) (data : List (NodeScanData R)) (i k : Nat)
    (hi : i + 2 ≤ TotalRows) :
    restartCell (data.map (groupRows value)) (k + 1) (i + 2) = lastGroupCell value data i k := by
  induction data with
  | nil => rfl
  | cons g gs ih =>
    simp only [List.map_cons, restartCell]
    rw [ih, seqCell_groupRows value g i k hi]
    unfold lastGroupCell
    rw [lastGroupWith_cons]
    cases hl : lastGroupWith gs i with
    | none =>
      simp only [overlay]
      by_cases hlt : i < g.ScanResults.length
      · rw [if_pos hlt]
      · rw [if_neg hlt]
        have hge : g.ScanResults.length ≤ i := by omega
        rw [List.getElem?_eq_none hge]
        rfl
    | some x =>
      simp only []
      have hx := lastGroupWith_lt gs i x hl
      rw [List.getElem?_eq_getElem hx]
      simp only [Option.some_bind]
      by_cases hk : k < w
      · have hk2 : k < (value x x.ScanResults[i]).length := by
          rw [hw]
          exact hk
        rw [List.getElem?_eq_getElem hk2]
        rfl
      · have hk2 : (value x x.ScanResults[i]).length ≤ k := by
          rw [hw]
          omega
        rw [List.getElem?_eq_none hk2]
        simp only [overlay]
        cases hg : g.ScanResults[i]? with
        | none => rfl
        | some rec =>
          have hk3 : (value g rec).length ≤ k := by
            rw [hw]
            omega
          simp only [Option.some_bind]
          exact List.getElem?_eq_none hk3

theorem restartCell_past (groups : List (List (List GoValue))) (c r : Nat) (h : TotalRows < r) :
    restartCell groups c r = none := by
  induction groups with
  | nil => rfl
  | cons vs rest ih =>
    simp only [restartCell]
    rw [ih]
    unfold seqCell
    rw [if_neg (by omega)]
    rfl

/-- The workbook of the cloud-compliance exporter: each group is written from
row 2 on; a row within the row limit holds the record of the last group that
reaches it, and the rows past the limit hold nothing. -/
theorem cloudComplianceXLSX_cells (env : Env) (params : ReportParams) (data : Info CloudCompliance)
    (h : env.getCloudComplianceData params = .ok data) :
    ∃ f, (cloudComplianceXLSX env params).xlsx = some f ∧
      f = (restartWorkbook env complianceHeader
            (data.NodeWiseData.ScanData.map (groupRows cloudComplianceValue))).1 ∧
      (∀ i k, i + 2 ≤ TotalRows →
        f.cellAt (k + 1) (i + 2)
          = lastGroupCell (storedValue cloudComplianceValue) data.NodeWiseData.ScanData i k) ∧
      (∀ c r, TotalRows < r → f.cellAt c r = none) := by
  rw [cloudComplianceXLSX_eq env params data h]
  have hcell := restartWorkbook_cells env complianceHeader complianceHeader_keys
    complianceHeader_short cloudComplianceValue 15 (fun _ _ => rfl) (by decide)
    data.NodeWiseData.ScanData
  refine ⟨_, rfl, rfl, ?_, ?_⟩
  · intro i k hi
    rw [hcell, restartCell_lastGroup (storedValue cloudComplianceValue) 15
      (storedValue_width cloudComplianceValue 15 (fun _ _ => rfl)) _ i k hi]
    have hh : headerCell complianceHeader (k + 1) (i + 2) = none := by
      unfold headerCell
      rw [if_neg (by omega)]
    rw [hh, overlay_none_right]
  · intro c r hr
    rw [hcell, restartCell_past _ c r hr]
    have hT : 1 < r := by
      unfold TotalRows at hr
      omega
    have hh : headerCell complianceHeader c r = none := by
      unfold headerCell
      rw [if_neg (by omega)]
    rw [hh]
    rfl

/-- C10 (as amended): the cloud-compliance exporter writes each node group from
row 2 on, a record at row = its index in its own group + 2 whatever the groups
before hold; so for every `i` with `i + 2` within the worksheet's row limit,
row `i + 2` holds the values of record `i` of the last group in fetch order
that has more than `i` records, as cells keep them (a string longer than 32767
characters cut to that length), and nothing if no group has more than `i`
records; the rows past the limit hold nothing. -/
theorem cloud_rows_restart_at_two (env : Env) (params : ReportParams) (data : Info CloudCompliance)
    (h : env.getCloudComplianceData params = .ok data) :
    ∃ f, (cloudComplianceXLSX env params).xlsx = some f ∧
      f = (writeGroups env.rowCheck (xlsxSetHeader env NewFile "Sheet1" complianceHeader, [])
            (data.NodeWiseData.ScanData.map (groupRows cloudComplianceValue))).1 ∧
      (∀ i k, i + 2 ≤ TotalRows →
        f.cellAt (k + 1) (i + 2)
          = lastGroupCell (storedValue cloudComplianceValue) data.NodeWiseData.ScanData i k) ∧
      (∀ c r, TotalRows < r → f.cellAt c r = none) :=
  cloudComplianceXLSX_cells env params data h

theorem cloud_rows_restart_at_two_witness :
    ∃ f,
      (cloudComplianceXLSX (fixtureEnv true noData noData noData noData (.ok ⟨⟨fixtureCloudGroups⟩⟩))
        (requestFor "cloud_compliance")).xlsx = some f ∧
      f = (writeGroups true
            (xlsxSetHeader (fixtureEnv true noData noData noData noData (.ok ⟨⟨fixtureCloudGroups⟩⟩))
              NewFile "Sheet1" complianceHeader, [])
            (fixtureCloudGroups.map (groupRows cloudComplianceValue))).1 ∧
      (∀ i k, i + 2 ≤ TotalRows →
        f.cellAt (k + 1) (i + 2)
          = lastGroupCell (storedValue cloudComplianceValue) fixtureCloudGroups i k) ∧
      (∀ c r, TotalRows < r → f.cellAt c r = none) :=
  cloud_rows_restart_at_two (fixtureEnv true noData noData noData noData (.ok ⟨⟨fixtureCloudGroups⟩⟩))
    (requestFor "cloud_compliance") ⟨⟨fixtureCloudGroups⟩⟩ rfl

theorem lastGroupCell_single {R : Type} (value : NodeScanData R → R → List GoValue)
    (g : NodeScanData R) (i k : Nat) (rec : R) (h : g.ScanResults[i]? = some rec) :
    lastGroupCell value [g] i k = (value g rec)[k]? := by
  have hlt := getElem?_lt _ _ _ h
  have hw : lastGroupWith [g] i = some g := by
    unfold lastGroupWith
    rw [List.reverse_singleton, List.find?_cons_of_pos]
    exact decide_eq_true hlt
  unfold lastGroupCell
  rw [hw]
  simp only []
  rw [h]
  rfl

theorem lastGroupCell_many :
    lastGroupCell cloudComplianceValue fixtureManyCloud 1048575 0 = some (.int 1700000000) := by
  have hget : (List.replicate 1048576 (fixtureCloudCompliance "control-1"))[1048575]?
      = some (fixtureCloudCompliance "control-1") :=
    List.getElem?_replicate_of_lt (by decide)
  exact (lastGroupCell_single cloudComplianceValue
    ⟨fixtureScanInfo "aws-1", List.replicate 1048576 (fixtureCloudCompliance "control-1")⟩
    1048575 0 (fixtureCloudCompliance "control-1") hget).trans rfl

theorem lastGroupCell_long :
    lastGroupCell cloudComplianceValue fixtureLongCloud 0 13 = some (.str longString) ∧
      lastGroupCell (storedValue cloudComplianceValue) fixtureLongCloud 0 13
        = some (cellValue (.str longString)) :=
  ⟨(lastGroupCell_single cloudComplianceValue
      ⟨fixtureScanInfo "aws-1",
        [{ fixtureCloudCompliance "control-1" with Title := .str longString }]⟩
      0 13 { fixtureCloudCompliance "control-1" with Title := .str longString } rfl).trans rfl,
   (lastGroupCell_single (storedValue cloudComplianceValue)
      ⟨fixtureScanInfo "aws-1",
        [{ fixtureCloudCompliance "control-1" with Title := .str longString }]⟩
      0 13 { fixtureCloudCompliance "control-1" with Title := .str longString } rfl).trans rfl⟩

/-- C10 (as stated) fails in two ways. With one node group of 1048576 records,
the claim puts record 1048575 in row 1048577, which is past the row limit and
holds nothing; this is so for either behaviour of `CoordinatesToCellName`. With
one record whose title has 40000 characters, the cell of the title in row 2
holds the first 32767 characters only. -/
theorem cloud_rows_counterexample :
    (∃ f,
      (cloudComplianceXLSX (fixtureEnv true noData noData noData noData (.ok ⟨⟨fixtureManyCloud⟩⟩))
        (requestFor "cloud_compliance")).xlsx = some f ∧
      ¬ RowsOfLastGroup cloudComplianceValue fixtureManyCloud f) ∧
    (∃ f,
      (cloudComplianceXLSX (fixtureEnv false noData noData noData noData (.ok ⟨⟨fixtureManyCloud⟩⟩))
        (requestFor "cloud_compliance")).xlsx = some f ∧
      ¬ RowsOfLastGroup cloudComplianceValue fixtureManyCloud f) ∧
    (∃ f,
      (cloudComplianceXLSX (fixtureEnv true noData noData noData noData (.ok ⟨⟨fixtureLongCloud⟩⟩))
        (requestFor "cloud_compliance")).xlsx = some f ∧
      ¬ RowsOfLastGroup cloudComplianceValue fixtureLongCloud f) := by
  refine ⟨?_, ?_, ?_⟩
  · obtain ⟨f, hf, _, _, hpast⟩ := cloudComplianceXLSX_cells
      (fixtureEnv true noData noData noData noData (.ok ⟨⟨fixtureManyCloud⟩⟩))
      (requestFor "cloud_compliance") ⟨⟨fixtureManyCloud⟩⟩ rfl
    refine ⟨f, hf, fun hall => ?_⟩
    have h1 := hall 1048575 0
    rw [hpast (0 + 1) (1048575 + 2) (by decide), lastGroupCell_many] at h1
    exact absurd h1 (by simp)
  · obtain ⟨f, hf, _, _, hpast⟩ := cloudComplianceXLSX_cells
      (fixtureEnv false noData noData noData noData (.ok ⟨⟨fixtureManyCloud⟩⟩))
      (requestFor "cloud_compliance") ⟨⟨fixtureManyCloud⟩⟩ rfl
    refine ⟨f, hf, fun hall => ?_⟩
    have h1 := hall 1048575 0
    rw [hpast (0 + 1) (1048575 + 2) (by decide), lastGroupCell_many] at h1
    exact absurd h1 (by simp)
  · obtain ⟨f, hf, _, hin, _⟩ := cloudComplianceXLSX_cells
      (fixtureEnv true noData noData noData noData (.ok ⟨⟨fixtureLongCloud⟩⟩))
      (requestFor "cloud_compliance") ⟨⟨fixtureLongCloud⟩⟩ rfl
    refine ⟨f, hf, fun hall => ?_⟩
    have h1 := hall 0 13
    rw [hin 0 13 (by decide), lastGroupCell_long.1, lastGroupCell_long.2] at h1
    exact cellValue_long longString longString_long (Option.some.inj h1)

/-! ## The number of data rows -/

/-- C3 fails for cloud-compliance: two node groups of one record each give one
data row, row 2, which holds the record of the second group; the fetched data
has two records. -/
theorem cloud_compliance_rows_overwritten :
    totalResults fixtureCloudGroups = 2 ∧
      (cloudComplianceXLSX (fixtureEnv true noData noData noData noData (.ok ⟨⟨fixtureCloudGroups⟩⟩))
        (requestFor "cloud_compliance")).xlsx.map (fun f => (f.dataRows, f.cellAt 15 2))
        = some ([2], some (.str "control-2")) ∧
      (cloudComplianceXLSX (fixtureEnv false noData noData noData noData (.ok ⟨⟨fixtureCloudGroups⟩⟩))
        (requestFor "cloud_compliance")).xlsx.map (fun f => (f.dataRows, f.cellAt 15 2))
        = some ([2], some (.str "control-2")) := by
  decide

theorem dataRows_length_offsetWorkbook {R : Type} (env : Env) (headers : List (String × String))
    (hk : keysInOrder headers) (hs : labelsShort headers)
    (value : NodeScanData R → R → List GoValue) (w : Nat)
    (hw : ∀ g rec, (value g rec).length = w) (hw1 : 1 ≤ w) (hw26 : w ≤ 26)
    (data : List (NodeScanData R)) (hT : totalResults data + 1 ≤ TotalRows) :
    (offsetWorkbook env headers (flatRows value data)).1.dataRows.length = totalResults data := by
  obtain ⟨hrow, hsurj, _, hbelow⟩ :=
    rowsContiguous_offsetWorkbook env headers hk hs value w hw hw26 data hT
  have hmem : ∀ r, r ∈ (offsetWorkbook env headers (flatRows value data)).1.dataRows
      ↔ r ∈ List.range' 2 (totalResults data) := by
    intro r
    rw [mem_dataRows, List.mem_range'_1]
    constructor
    · rintro ⟨h2, c, hc⟩
      refine ⟨h2, ?_⟩
      by_contra hcon
      rw [hbelow c r (by omega)] at hc
      exact absurd hc (by simp)
    · rintro ⟨h2, hlt⟩
      refine ⟨h2, 1, ?_⟩
      obtain ⟨g, grp, i, rec, hg, hi, hr⟩ := hsurj r h2 hlt
      rw [hr, hrow g grp i rec hg hi 1, if_pos (le_refl 1)]
      have h0 : 1 - 1 < (storedValue value grp rec).length := by
        rw [storedValue_width value w hw]
        omega
      rw [List.getElem?_eq_getElem h0]
      rfl
  have hnd : (offsetWorkbook env headers (flatRows value data)).1.dataRows.Nodup := by
    unfold File.dataRows
    exact List.nodup_dedup _
  have hperm := (List.perm_ext_iff_of_nodup hnd (List.nodup_range' 2 (totalResults data))).mpr hmem
  rw [hperm.length_eq, List.length_range']

/-- For the vulnerability, secret, malware and compliance exporters, when the
rows of all records are within the row limit, the number of data rows of the
worksheet is the number of result records of all node groups. -/
theorem offset_data_row_count (env : Env) (params : ReportParams) :
    (∀ data, env.getVulnerabilityData params = .ok data →
      totalResults data.NodeWiseData.ScanData + 1 ≤ TotalRows →
      ∃ f, (vulnerabilityXLSX env params).xlsx = some f ∧
        f.dataRows.length = totalResults data.NodeWiseData.ScanData) ∧
    (∀ data, env.getSecretData params = .ok data →
      totalResults data.NodeWiseData.ScanData + 1 ≤ TotalRows →
      ∃ f, (secretXLSX env params).xlsx = some f ∧
        f.dataRows.length = totalResults data.NodeWiseData.ScanData) ∧
    (∀ data, env.getMalwareData params = .ok data →
      totalResults data.NodeWiseData.ScanData + 1 ≤ TotalRows →
      ∃ f, (malwareXLSX env params).xlsx = some f ∧
        f.dataRows.length = totalResults data.NodeWiseData.ScanData) ∧
    (∀ data, env.getComplianceData params = .ok data →
      totalResults data.NodeWiseData.ScanData + 1 ≤ TotalRows →
      ∃ f, (complianceXLSX env params).xlsx = some f ∧
        f.dataRows.length = totalResults data.NodeWiseData.ScanData) := by
  refine ⟨?_, ?_, ?_, ?_⟩
  · intro data h hT
    rw [vulnerabilityXLSX_eq env params data h]
    exact ⟨_, rfl, dataRows_length_offsetWorkbook env _ vulnerabilityHeader_keys
      vulnerabilityHeader_short vulnerabilityValue 17
      (fun _ _ => rfl) (by decide) (by decide) _ hT⟩
  · intro data h hT
    rw [secretXLSX_eq env params data h]
    exact ⟨_, rfl, dataRows_length_offsetWorkbook env _ secretHeader_keys
      secretHeader_short secretValue 9
      (fun _ _ => rfl) (by decide) (by decide) _ hT⟩
  · intro data h hT
    rw [malwareXLSX_eq env params data h]
    exact ⟨_, rfl, dataRows_length_offsetWorkbook env _ malwareHeader_keys
      malwareHeader_short malwareValue 11
      (fun _ _ => rfl) (by decide) (by decide) _ hT⟩
  · intro data h hT
    rw [complianceXLSX_eq env params data h]
    exact ⟨_, rfl, dataRows_length_offsetWorkbook env _ complianceHeader_keys
      complianceHeader_short complianceValue 15
      (fun _ _ => rfl) (by decide) (by decide) _ hT⟩

theorem offset_data_row_count_witness :
    totalResults fixtureGroups = 6 ∧
      ∃ f,
        (vulnerabilityXLSX (fixtureEnv true (.ok ⟨⟨fixtureGroups⟩⟩) noData noData noData noData)
          (requestFor "vulnerability")).xlsx = some f ∧
        f.dataRows.length = totalResults fixtureGroups :=
  ⟨by decide,
   (offset_data_row_count (fixtureEnv true (.ok ⟨⟨fixtureGroups⟩⟩) noData noData noData noData)
      (requestFor "vulnerability")).1 ⟨⟨fixtureGroups⟩⟩ rfl (by decide)⟩

end Reports
